import Mathlib

/-!
Verification development for the asynchronous admin-request engine of a
Kafka client library (rdkafka_admin.c).

The definitions below are a shallow embedding of the C source.  Pure data
types (topic specs, config resources, config entries, admin options) become
Lean structures; the response parsers become Lean functions from a
structured, already-decoded wire reply to an Except value; the worker state
machine becomes a function from an environment (monotonic clock, broker
availability, outcome of the external send and parse callbacks) and a
request record to an outcome value.

Collaborator code that is not part of the analysed translation unit
(the rd_list positional sequence, the confval option cells, strtol, the
buf_parse_fail macro, the enum numbering of the public header) is modelled
from the specification document, and each such definition says so in its
doc comment.
-/

/-- Response error codes used by the admin module.  The numbering of the
real enum lives in a header outside the analysed file, so the codes are
modelled as an inductive: NO_ERROR is the single zero code, DESTROY,
TIMED_OUT, BAD_MSG, INVALID_ARG and CONFLICT stand for the internal
(double-underscore) codes of the same names, REQUEST_TIMED_OUT is the
broker-side code 7, and other n stands for any further non-zero code. -/
inductive ErrCode where
  | NO_ERROR
  | DESTROY
  | TIMED_OUT
  | BAD_MSG
  | INVALID_ARG
  | CONFLICT
  | REQUEST_TIMED_OUT
  | other (n : Int)
deriving DecidableEq, Repr

/-- Modelled from the spec: human-readable rendering of an error code
(the rd_kafka_err2str table is outside the analysed file; only its use as
an opaque-to-the-parser string matters here). -/
def rd_kafka_err2str : ErrCode → String
  | .NO_ERROR => "Success"
  | .DESTROY => "Local: Broker handle destroyed"
  | .TIMED_OUT => "Local: Timed out"
  | .BAD_MSG => "Local: Bad message format"
  | .INVALID_ARG => "Local: Invalid argument or configuration"
  | .CONFLICT => "Local: Conflicting use"
  | .REQUEST_TIMED_OUT => "Broker: Request timed out"
  | .other n => "Err-" ++ toString n

/-- Modelled from the spec: the ordered, positional sequence type (rd_list)
used for request args and per-element results.  Args lists are built by
appends and are modelled as plain Lean lists; result lists are built by
positional writes and are modelled as a list of optional slots, where none
is an unset (NULL) slot. -/
structure RdList (α : Type) where
  elems : List (Option α)
deriving Repr

/-- Modelled from the spec: number of elements of the sequence
(rd_list_cnt). -/
def rd_list_cnt {α : Type} (l : RdList α) : Nat :=
  l.elems.length

/-- Modelled from the spec: positional read (rd_list_elem); an index at or
past the count, or an unset slot, reads as NULL. -/
def rd_list_elem {α : Type} (l : RdList α) (i : Nat) : Option α :=
  l.elems.getD i none

/-- Modelled from the spec: positional write (rd_list_set); writing past
the current count extends the sequence, leaving the intermediate slots
unset. -/
def rd_list_set {α : Type} (l : RdList α) (i : Nat) (x : α) : RdList α :=
  if i < l.elems.length then ⟨l.elems.set i (some x)⟩
  else ⟨l.elems ++ List.replicate (i - l.elems.length) none ++ [some x]⟩

/-- Number of set (non-NULL) slots of a result sequence. -/
def rd_list_some_cnt {α : Type} (l : RdList α) : Nat :=
  l.elems.countP (fun o => o.isSome)

/-- Modelled from the spec: linear search for the first matching element
(rd_list_index), with the comparator specialised to an equality test;
returns none where the C function returns -1.  The index accumulator
mirrors the C iteration. -/
def rd_list_index0 {α : Type} (matchf : α → Bool) : List α → Nat → Option Nat
  | [], _ => none
  | a :: as, i => if matchf a then some i else rd_list_index0 matchf as (i + 1)

/-- Modelled from the spec: see rd_list_index0. -/
def rd_list_index {α : Type} (l : List α) (matchf : α → Bool) : Option Nat :=
  rd_list_index0 matchf l 0

/-- Modelled from the spec (public-header enum): config source tags.
UNKNOWN_CONFIG is 0 and DEFAULT_CONFIG is 5, with the sentinel count 6. -/
def RD_KAFKA_CONFIG_SOURCE_UNKNOWN_CONFIG : Int := 0

/-- Modelled from the spec (public-header enum): the DEFAULT_CONFIG source
tag. -/
def RD_KAFKA_CONFIG_SOURCE_DEFAULT_CONFIG : Int := 5

/-- Modelled from the spec (public-header enum): number of config source
tags. -/
def RD_KAFKA_CONFIG_SOURCE__CNT : Int := 6

/-- Modelled from the spec (public-header enum): the BROKER resource
type. -/
def RD_KAFKA_RESOURCE_BROKER : Int := 4

/-- Modelled from the spec (public-header enum): number of resource
types (UNKNOWN, ANY, TOPIC, GROUP, BROKER). -/
def RD_KAFKA_RESOURCE__CNT : Int := 5

/-- INT32_MAX. -/
def INT32_MAX : Int := 2 ^ 31 - 1

/-- LONG_MAX for the 64-bit long of the reference platform. -/
def LONG_MAX : Int := 2 ^ 63 - 1

/-- LONG_MIN for the 64-bit long of the reference platform. -/
def LONG_MIN : Int := -(2 ^ 63)

/-- Truncating conversion of a mathematical integer to the int32 value
range, as performed by a C cast to int32_t. -/
def toInt32 (v : Int) : Int :=
  (v + 2 ^ 31) % 2 ^ 32 - 2 ^ 31

/-- Conversion of a mathematical integer to the unsigned-int value used by
the C casts in the enum-name lookups (value modulo 2 to the 32). -/
def toUInt32N (v : Int) : Nat :=
  (v % 2 ^ 32).toNat

/-- Modelled from the spec: an integer option cell (rd_kafka_confval for
RD_KAFKA_CONFVAL_INT).  Setting an option that does not apply to the
chosen API fails with INVALID_ARG, and a value outside the declared valid
range fails with INVALID_ARG (spec, sections 6 and 7). -/
structure ConfvalInt where
  valid : Bool
  vmin : Int
  vmax : Int
  v : Int
deriving DecidableEq, Repr

/-- Modelled from the spec: initialise an enabled integer option cell with
its valid range and default value (rd_kafka_confval_init_int). -/
def rd_kafka_confval_init_int (vmin vmax vdef : Int) : ConfvalInt :=
  { valid := true, vmin := vmin, vmax := vmax, v := vdef }

/-- Modelled from the spec: disable an option cell that does not apply to
the chosen API (rd_kafka_confval_disable). -/
def rd_kafka_confval_disable : ConfvalInt :=
  { valid := false, vmin := 0, vmax := 0, v := 0 }

/-- Modelled from the spec: set an integer option cell
(rd_kafka_confval_set_type with RD_KAFKA_CONFVAL_INT): a disabled cell or
an out-of-range value is rejected with INVALID_ARG. -/
def rd_kafka_confval_set_int (c : ConfvalInt) (value : Int) : ErrCode × ConfvalInt :=
  if c.valid = false then (.INVALID_ARG, c)
  else if value < c.vmin ∨ value > c.vmax then (.INVALID_ARG, c)
  else (.NO_ERROR, { c with v := value })

/-- Read the current value of an integer option cell
(rd_kafka_confval_get_int). -/
def rd_kafka_confval_get_int (c : ConfvalInt) : Int :=
  c.v

/-- Case-insensitive string comparison used for the for_api name
(rd_strcasecmp, equality outcome only). -/
def rd_strcaseeq (a b : String) : Bool :=
  a.toLower == b.toLower

/-- Per-call admin options (rd_kafka_AdminOptions_t).  The opaque pointer
field is elided: no verified claim reads it. -/
structure AdminOptions where
  for_api : Option String
  request_timeout : ConfvalInt
  operation_timeout : ConfvalInt
  validate_only : ConfvalInt
  incremental : ConfvalInt
  broker : ConfvalInt
deriving DecidableEq, Repr

/-- Does the for_api name of the options match one of the listed admin
API names (a NULL for_api matches every API)? -/
def admin_for_api_matches (for_api : Option String) (apis : List String) : Bool :=
  match for_api with
  | none => true
  | some s => apis.any (fun t => rd_strcaseeq s t)

/-- Initialise and set up defaults for AdminOptions
(rd_kafka_AdminOptions_init, source lines 912 to 952).
request_timeout ranges over 0 to 3600000 with the client-configured
default; operation_timeout applies to the three topic APIs with range
-1 to 3600000 and default 0; validate_only applies to CreateTopics,
CreatePartitions and AlterConfigs; incremental applies to AlterConfigs;
the broker option is declared with range 0 to INT32_MAX and default -1. -/
def rd_kafka_AdminOptions_init (admin_request_timeout_ms : Int)
    (for_api : Option String) : AdminOptions :=
  { for_api := for_api
    request_timeout :=
      rd_kafka_confval_init_int 0 (3600 * 1000) admin_request_timeout_ms
    operation_timeout :=
      if admin_for_api_matches for_api
          ["CreateTopics", "DeleteTopics", "CreatePartitions"] then
        rd_kafka_confval_init_int (-1) (3600 * 1000) 0
      else rd_kafka_confval_disable
    validate_only :=
      if admin_for_api_matches for_api
          ["CreateTopics", "CreatePartitions", "AlterConfigs"] then
        rd_kafka_confval_init_int 0 1 0
      else rd_kafka_confval_disable
    incremental :=
      if admin_for_api_matches for_api ["AlterConfigs"] then
        rd_kafka_confval_init_int 0 1 0
      else rd_kafka_confval_disable
    broker := rd_kafka_confval_init_int 0 INT32_MAX (-1) }

/-- Set the broker option (rd_kafka_AdminOptions_set_broker, source lines
889 to 899): the int32 argument is widened to int and stored through the
option cell.  Returns the error code and the updated options. -/
def rd_kafka_AdminOptions_set_broker (options : AdminOptions)
    (broker_id : Int) : ErrCode × AdminOptions :=
  let ibroker_id : Int := broker_id
  let r := rd_kafka_confval_set_int options.broker ibroker_id
  (r.1, { options with broker := r.2 })

/-- Set the operation_timeout option
(rd_kafka_AdminOptions_set_operation_timeout). -/
def rd_kafka_AdminOptions_set_operation_timeout (options : AdminOptions)
    (timeout_ms : Int) : ErrCode × AdminOptions :=
  let r := rd_kafka_confval_set_int options.operation_timeout timeout_ms
  (r.1, { options with operation_timeout := r.2 })

/-- Is the character one of the C isspace class (used by strtol)? -/
def c_isspace (c : Char) : Bool :=
  c = ' ' ∨ c = '\t' ∨ c = '\n' ∨ c = '\x0b' ∨ c = '\x0c' ∨ c = '\r'

/-- Numeric value of a base-10 digit string. -/
def digitsVal (ds : List Char) : Int :=
  ds.foldl (fun acc c => acc * 10 + (Int.ofNat (c.toNat - '0'.toNat))) 0

/-- Modelled from the spec: base-10 strtol on the reference platform.
Skips leading whitespace, accepts one optional sign, consumes the longest
digit run, clamps the value to the long range on overflow, and reports
whether any digit was consumed (endptr differs from the input pointer
exactly when a digit was consumed). -/
def rd_strtol10 (s : String) : Int × Bool :=
  let cs := s.toList.dropWhile c_isspace
  let signed : Bool × List Char :=
    match cs with
    | '-' :: t => (true, t)
    | '+' :: t => (false, t)
    | _ => (false, cs)
  let digits := signed.2.takeWhile (fun c => c.isDigit)
  if digits.isEmpty then (0, false)
  else
    let v := (if signed.1 then -1 else 1) * digitsVal digits
    (max LONG_MIN (min LONG_MAX v), true)

/-- The int32 value the pre-flight scan derives from a BROKER resource
name: the strtol result cast to int32_t and widened back to long
(source line 2234). -/
def broker_name_parsed (name : String) : Int :=
  toInt32 (rd_strtol10 name).1

/-- The rejection condition of the pre-flight scan for a BROKER resource
name (source lines 2235 to 2236): the cast value equals LONG_MIN or
LONG_MAX, no digit was consumed, or the value is negative. -/
def broker_name_rejected (name : String) : Bool :=
  broker_name_parsed name == LONG_MIN || broker_name_parsed name == LONG_MAX ||
    !(rd_strtol10 name).2 || decide (broker_name_parsed name < 0)

/-- Error string written when more than one BROKER resource is found. -/
def conflictErrstr : String :=
  "Only one ConfigResource of type BROKER is allowed per call"

/-- Error string written when a BROKER resource name does not parse to a
valid int32 broker id. -/
def invalidBrokerErrstr (name : String) : String :=
  "Expected an int32 broker_id for ConfigResource(type=BROKER, name=" ++
    name ++ ")"

/-- A config entry attribute block (the anonymous struct a of
rd_kafka_ConfigEntry_t).  The AlterOperation tag is elided: no verified
claim reads it. -/
structure ConfigEntryA where
  source : Int
  is_readonly : Bool
  is_default : Bool
  is_sensitive : Bool
  is_synonym : Bool
deriving DecidableEq, Repr

/-- A config entry (rd_kafka_ConfigEntry_t): a name and optional value
pair, the attribute block, and the ordered synonym entries. -/
inductive ConfigEntry where
  | mk (kv_name : String) (kv_value : Option String) (a : ConfigEntryA)
      (synonyms : List ConfigEntry)
deriving Repr

/-- Name of a config entry. -/
def ConfigEntry.kv_name : ConfigEntry → String
  | .mk n _ _ _ => n

/-- Value of a config entry. -/
def ConfigEntry.kv_value : ConfigEntry → Option String
  | .mk _ v _ _ => v

/-- Attribute block of a config entry. -/
def ConfigEntry.a : ConfigEntry → ConfigEntryA
  | .mk _ _ a _ => a

/-- Synonym entries of a config entry. -/
def ConfigEntry.synonyms : ConfigEntry → List ConfigEntry
  | .mk _ _ _ s => s

/-- Create a new ConfigEntry (rd_kafka_ConfigEntry_new0, source lines 1904
to 1920): NULL when the name is NULL; otherwise a zero-initialised entry
with an empty synonym list whose source is UNKNOWN_CONFIG. -/
def rd_kafka_ConfigEntry_new0 (name : Option String)
    (value : Option String) : Option ConfigEntry :=
  match name with
  | none => none
  | some n =>
      some (.mk n value
        { source := RD_KAFKA_CONFIG_SOURCE_UNKNOWN_CONFIG,
          is_readonly := false, is_default := false,
          is_sensitive := false, is_synonym := false } [])

/-- Return the synonym array of an entry
(rd_kafka_ConfigEntry_synonyms, source lines 1986 to 1994): the count
output is set to the synonym count, and the returned pointer is NULL
exactly when that count is zero.  The returned pair is (pointer, count). -/
def rd_kafka_ConfigEntry_synonyms (entry : ConfigEntry) :
    Option (List ConfigEntry) × Nat :=
  let cnt := entry.synonyms.length
  if cnt = 0 then (none, cnt)
  else (some entry.synonyms, cnt)

/-- A config resource (rd_kafka_ConfigResource_t). -/
structure ConfigResource where
  restype : Int
  name : String
  err : ErrCode
  errstr : Option String
  config : List ConfigEntry
deriving Repr

/-- Create a new ConfigResource (rd_kafka_ConfigResource_new, source lines
2057 to 2074): NULL when the name is empty or the resource type is
negative; otherwise a resource with an empty config list and no error. -/
def rd_kafka_ConfigResource_new (restype : Int) (resname : String) :
    Option ConfigResource :=
  let namesz := resname.length
  if namesz = 0 ∨ restype < 0 then none
  else some { restype := restype, name := resname, err := .NO_ERROR,
              errstr := none, config := [] }

/-- Type-then-name comparator for ConfigResource_t
(rd_kafka_ConfigResource_cmp), as an equality test. -/
def rd_kafka_ConfigResource_cmp (a b : ConfigResource) : Bool :=
  a.restype == b.restype && a.name == b.name

/-- Return the config entry array of a resource
(rd_kafka_ConfigResource_configs, source lines 2162 to 2169): the count
output is set to the entry count, and the returned pointer is NULL exactly
when that count is zero.  The returned pair is (pointer, count). -/
def rd_kafka_ConfigResource_configs (config : ConfigResource) :
    Option (List ConfigEntry) × Nat :=
  let cnt := config.config.length
  if cnt = 0 then (none, cnt)
  else (some config.config, cnt)

/-- Inner loop of the broker-resource pre-flight scan
(rd_kafka_ConfigResource_get_single_broker_id, source lines 2210 to 2253),
with the broker_id accumulator made explicit.  Non-BROKER resources are
skipped; a second BROKER resource fails with CONFLICT; a rejected name
fails with INVALID_ARG; otherwise the parsed id becomes the accumulator. -/
def rd_kafka_ConfigResource_get_single_broker_id0
    (configs : List ConfigResource) (broker_id : Int) :
    Except (ErrCode × String) Int :=
  match configs with
  | [] => .ok broker_id
  | config :: rest =>
      if config.restype ≠ RD_KAFKA_RESOURCE_BROKER then
        rd_kafka_ConfigResource_get_single_broker_id0 rest broker_id
      else if broker_id ≠ -1 then
        .error (.CONFLICT, conflictErrstr)
      else if broker_name_rejected config.name then
        .error (.INVALID_ARG, invalidBrokerErrstr config.name)
      else
        rd_kafka_ConfigResource_get_single_broker_id0 rest
          (broker_name_parsed config.name)

/-- Broker-resource pre-flight scan: find the single BROKER resource id in
the args list, starting from the default target -1 (the controller). -/
def rd_kafka_ConfigResource_get_single_broker_id
    (configs : List ConfigResource) : Except (ErrCode × String) Int :=
  rd_kafka_ConfigResource_get_single_broker_id0 configs (-1)

/-- Outcome of an AlterConfigs or DescribeConfigs submission: either the
request op is enqueued on the engine work queue with the given target
broker id, or a failure result is posted synchronously and no op is
enqueued. -/
inductive AdminSubmitRes where
  | enqueued (broker_id : Int)
  | failedSync (err : ErrCode)
deriving DecidableEq, Repr

/-- Submission path of rd_kafka_AlterConfigs (source lines 2393 to 2436),
restricted to the broker-resource pre-flight: the deep copy of the args
and the op bookkeeping are value-level identities in this model. -/
def rd_kafka_AlterConfigs (configs : List ConfigResource) : AdminSubmitRes :=
  match rd_kafka_ConfigResource_get_single_broker_id configs with
  | .error e => .failedSync e.1
  | .ok broker_id => .enqueued broker_id

/-- Submission path of rd_kafka_DescribeConfigs (source lines 2700 to
2743), restricted to the broker-resource pre-flight. -/
def rd_kafka_DescribeConfigs (configs : List ConfigResource) : AdminSubmitRes :=
  match rd_kafka_ConfigResource_get_single_broker_id configs with
  | .error e => .failedSync e.1
  | .ok broker_id => .enqueued broker_id

/-- Name table of rd_kafka_ConfigSource_name (source lines 2011 to
2018). -/
def configSourceNames : List String :=
  ["UNKNOWN_CONFIG", "DYNAMIC_TOPIC_CONFIG", "DYNAMIC_BROKER_CONFIG",
   "DYNAMIC_DEFAULT_BROKER_CONFIG", "STATIC_BROKER_CONFIG", "DEFAULT_CONFIG"]

/-- Name of a config source tag (rd_kafka_ConfigSource_name, source lines
2009 to 2025): the tag is compared against the enum count as an unsigned
int, and only in-range tags index the table. -/
def rd_kafka_ConfigSource_name (confsource : Int) : String :=
  if toUInt32N RD_KAFKA_CONFIG_SOURCE__CNT ≤ toUInt32N confsource then
    "UNSUPPORTED"
  else configSourceNames.getD (toUInt32N confsource) ""

/-- Name table of rd_kafka_ResourceType_name (source lines 2041 to
2047). -/
def resourceTypeNames : List String :=
  ["UNKNOWN", "ANY", "TOPIC", "GROUP", "BROKER"]

/-- Name of a resource type (rd_kafka_ResourceType_name, source lines 2039
to 2054): the type is compared against the enum count as an unsigned int,
and only in-range types index the table. -/
def rd_kafka_ResourceType_name (restype : Int) : String :=
  if toUInt32N RD_KAFKA_RESOURCE__CNT ≤ toUInt32N restype then
    "UNSUPPORTED"
  else resourceTypeNames.getD (toUInt32N restype) ""

/-- A CreateTopics argument record (rd_kafka_NewTopic_t).  Only the topic
name is read by the response parser; the partition and replica fields are
elided. -/
structure NewTopic where
  topic : String
deriving DecidableEq, Repr

/-- Topic name comparator for NewTopic_t (rd_kafka_NewTopic_cmp), as an
equality test. -/
def rd_kafka_NewTopic_cmp (a b : NewTopic) : Bool :=
  a.topic == b.topic

/-- A DeleteTopics argument record (rd_kafka_DeleteTopic_t). -/
structure DeleteTopic where
  topic : String
deriving DecidableEq, Repr

/-- Topic name comparator for DeleteTopic_t (rd_kafka_DeleteTopic_cmp), as
an equality test. -/
def rd_kafka_DeleteTopic_cmp (a b : DeleteTopic) : Bool :=
  a.topic == b.topic

/-- A CreatePartitions argument record (rd_kafka_NewPartitions_t).  Only
the topic name is read by the response parser; the count and replica
fields are elided. -/
structure NewPartitions where
  topic : String
deriving DecidableEq, Repr

/-- Topic name comparator for NewPartitions_t
(rd_kafka_NewPartitions_cmp), as an equality test. -/
def rd_kafka_NewPartitions_cmp (a b : NewPartitions) : Bool :=
  a.topic == b.topic

/-- A per-topic result record (rd_kafka_topic_result_t). -/
structure TopicResult where
  topic : String
  err : ErrCode
  errstr : Option String
deriving DecidableEq, Repr

/-- Parse failures of the admin response parsers.  Every constructor is
raised through the buf_parse_fail path or an explicit BAD_MSG return. -/
inductive ParseErr where
  | tooManyInResponse (received : Nat) (requested : Nat)
  | notIncluded (key : String)
  | multipleTimes (key : String)
  | synonymLimit (cnt : Nat)
  | invalidSynonym
deriving DecidableEq, Repr

/-- Modelled from the spec: the error code carried by every parse failure.
The shared failure macro of the response readers is outside the analysed
file; the spec states that parsing fails with BadMessage, and the one
in-file explicit return (AlterConfigs count check, source line 2297) also
returns BAD_MSG. -/
def ParseErr.code : ParseErr → ErrCode :=
  fun _ => .BAD_MSG

/-- Shared element-loop driver of the parsers: run the per-element step
over the response elements, threading the result sequence, stopping at the
first failure (the for loop around each goto-based parse body). -/
def admin_parse_loop {α β : Type}
    (step : RdList α → β → Except ParseErr (RdList α)) :
    RdList α → List β → Except ParseErr (RdList α)
  | r, [] => .ok r
  | r, e :: es =>
      match step r e with
      | .error pe => .error pe
      | .ok r' => admin_parse_loop step r' es

/-- The errstr a parser derives from an element error code and the
element error message (the shared if error_code block of the parse
bodies): NULL when the code is zero, the err2str rendering when the
message is NULL or empty, the message otherwise. -/
def admin_errstr (error_code : ErrCode) (error_msg : Option String) :
    Option String :=
  if error_code ≠ ErrCode.NO_ERROR then
    some (match error_msg with
      | none => rd_kafka_err2str error_code
      | some m => if m.length = 0 then rd_kafka_err2str error_code else m)
  else none

/-- A per-topic element of a CreateTopicsResponse. -/
structure CTRespTopic where
  ktopic : String
  error_code : ErrCode
  error_msg : Option String
deriving DecidableEq, Repr

/-- A decoded CreateTopicsResponse: negotiated version and per-topic
elements.  Throttle time is consumed by external accounting and elided. -/
structure CreateTopicsResponse where
  ApiVersion : Int
  topics : List CTRespTopic
deriving DecidableEq, Repr

/-- The per-topic result built by the CreateTopics parse body (source
lines 1226 to 1266): the error message is only read on version 1 and up;
a REQUEST_TIMED_OUT element error is rewritten to no error when
operation_timeout is at most zero; the errstr falls back to err2str on a
NULL or empty message. -/
def CreateTopics_build_result (v : Int) (options : AdminOptions)
    (e : CTRespTopic) : TopicResult :=
  let error_msg : Option String := if 1 ≤ v then e.error_msg else none
  let error_code : ErrCode :=
    if e.error_code = .REQUEST_TIMED_OUT ∧
        rd_kafka_confval_get_int options.operation_timeout ≤ 0 then
      .NO_ERROR
    else e.error_code
  { topic := e.ktopic, err := error_code,
    errstr := admin_errstr error_code error_msg }

/-- Loop body of the CreateTopics parser (source lines 1225 to 1294):
build the topic result, find the original request position by topic name,
fail when the topic is missing from the request or already answered, and
otherwise store the result at the original position. -/
def CreateTopics_handle_topic (args : List NewTopic) (options : AdminOptions)
    (v : Int) (r : RdList TopicResult) (e : CTRespTopic) :
    Except ParseErr (RdList TopicResult) :=
  let terr := CreateTopics_build_result v options e
  match rd_list_index args
      (fun nt => rd_kafka_NewTopic_cmp nt { topic := terr.topic }) with
  | none => .error (.notIncluded e.ktopic)
  | some orig_pos =>
      if (rd_list_elem r orig_pos).isSome then
        .error (.multipleTimes e.ktopic)
      else .ok (rd_list_set r orig_pos terr)

/-- Parse CreateTopicsResponse (rd_kafka_CreateTopicsResponse_parse,
source lines 1190 to 1309): fail when the response carries more topics
than requested, then run the per-topic loop on an initially empty result
sequence. -/
def rd_kafka_CreateTopicsResponse_parse (args : List NewTopic)
    (options : AdminOptions) (reply : CreateTopicsResponse) :
    Except ParseErr (RdList TopicResult) :=
  if args.length < reply.topics.length then
    .error (.tooManyInResponse reply.topics.length args.length)
  else
    admin_parse_loop (CreateTopics_handle_topic args options reply.ApiVersion)
      ⟨[]⟩ reply.topics

/-- A per-topic element of a DeleteTopicsResponse. -/
structure DTRespTopic where
  ktopic : String
  error_code : ErrCode
deriving DecidableEq, Repr

/-- A decoded DeleteTopicsResponse. -/
structure DeleteTopicsResponse where
  ApiVersion : Int
  topics : List DTRespTopic
deriving DecidableEq, Repr

/-- The per-topic result built by the DeleteTopics parse body (source
lines 1456 to 1483): a REQUEST_TIMED_OUT element error is rewritten to no
error when operation_timeout is at most zero, and the errstr is the
err2str rendering of a non-zero code. -/
def DeleteTopics_build_result (options : AdminOptions)
    (e : DTRespTopic) : TopicResult :=
  let error_code : ErrCode :=
    if e.error_code = .REQUEST_TIMED_OUT ∧
        rd_kafka_confval_get_int options.operation_timeout ≤ 0 then
      .NO_ERROR
    else e.error_code
  { topic := e.ktopic, err := error_code,
    errstr := if error_code ≠ ErrCode.NO_ERROR then
        some (rd_kafka_err2str error_code)
      else none }

/-- Loop body of the DeleteTopics parser (source lines 1456 to 1511). -/
def DeleteTopics_handle_topic (args : List DeleteTopic)
    (options : AdminOptions) (r : RdList TopicResult) (e : DTRespTopic) :
    Except ParseErr (RdList TopicResult) :=
  let terr := DeleteTopics_build_result options e
  match rd_list_index args
      (fun dt => rd_kafka_DeleteTopic_cmp dt { topic := terr.topic }) with
  | none => .error (.notIncluded e.ktopic)
  | some orig_pos =>
      if (rd_list_elem r orig_pos).isSome then
        .error (.multipleTimes e.ktopic)
      else .ok (rd_list_set r orig_pos terr)

/-- Parse DeleteTopicsResponse (rd_kafka_DeleteTopicsResponse_parse,
source lines 1422 to 1526). -/
def rd_kafka_DeleteTopicsResponse_parse (args : List DeleteTopic)
    (options : AdminOptions) (reply : DeleteTopicsResponse) :
    Except ParseErr (RdList TopicResult) :=
  if args.length < reply.topics.length then
    .error (.tooManyInResponse reply.topics.length args.length)
  else
    admin_parse_loop (DeleteTopics_handle_topic args options)
      ⟨[]⟩ reply.topics

/-- A per-topic element of a CreatePartitionsResponse. -/
structure CPRespTopic where
  ktopic : String
  error_code : ErrCode
  error_msg : Option String
deriving DecidableEq, Repr

/-- A decoded CreatePartitionsResponse. -/
structure CreatePartitionsResponse where
  ApiVersion : Int
  topics : List CPRespTopic
deriving DecidableEq, Repr

/-- The per-topic result built by the CreatePartitions parse body (source
lines 1738 to 1777): a REQUEST_TIMED_OUT element error is rewritten to no
error when operation_timeout is at most zero.  The body computes a local
errstr from the element message but passes the err2str rendering to
topic_result_new, so the message never reaches the result. -/
def CreatePartitions_build_result (options : AdminOptions)
    (e : CPRespTopic) : TopicResult :=
  let error_code : ErrCode :=
    if e.error_code = .REQUEST_TIMED_OUT ∧
        rd_kafka_confval_get_int options.operation_timeout ≤ 0 then
      .NO_ERROR
    else e.error_code
  { topic := e.ktopic, err := error_code,
    errstr := if error_code ≠ ErrCode.NO_ERROR then
        some (rd_kafka_err2str error_code)
      else none }

/-- Loop body of the CreatePartitions parser (source lines 1738 to
1805). -/
def CreatePartitions_handle_topic (args : List NewPartitions)
    (options : AdminOptions) (r : RdList TopicResult) (e : CPRespTopic) :
    Except ParseErr (RdList TopicResult) :=
  let terr := CreatePartitions_build_result options e
  match rd_list_index args
      (fun np => rd_kafka_NewPartitions_cmp np { topic := terr.topic }) with
  | none => .error (.notIncluded e.ktopic)
  | some orig_pos =>
      if (rd_list_elem r orig_pos).isSome then
        .error (.multipleTimes e.ktopic)
      else .ok (rd_list_set r orig_pos terr)

/-- Parse CreatePartitionsResponse
(rd_kafka_CreatePartitionsResponse_parse, source lines 1705 to 1820). -/
def rd_kafka_CreatePartitionsResponse_parse (args : List NewPartitions)
    (options : AdminOptions) (reply : CreatePartitionsResponse) :
    Except ParseErr (RdList TopicResult) :=
  if args.length < reply.topics.length then
    .error (.tooManyInResponse reply.topics.length args.length)
  else
    admin_parse_loop (CreatePartitions_handle_topic args options)
      ⟨[]⟩ reply.topics

/-- The type,name key rendering used in the config parsers error
messages. -/
def configResourceKey (res_type : Int) (res_name : String) : String :=
  toString res_type ++ "," ++ res_name

/-- A per-resource element of an AlterConfigsResponse. -/
structure ACRespResource where
  error_code : ErrCode
  error_msg : Option String
  res_type : Int
  res_name : String
deriving DecidableEq, Repr

/-- A decoded AlterConfigsResponse. -/
structure AlterConfigsResponse where
  ApiVersion : Int
  resources : List ACRespResource
deriving DecidableEq, Repr

/-- Loop body of the AlterConfigs parser (source lines 2305 to 2373):
build the resource, skipping (with a logged warning) elements for which
ConfigResource_new fails, record the element error, find the original
request position by resource type and name, fail when the resource is
missing from the request or already answered, and otherwise store the
result at the original position. -/
def AlterConfigs_handle_resource (args : List ConfigResource)
    (r : RdList ConfigResource) (e : ACRespResource) :
    Except ParseErr (RdList ConfigResource) :=
  match rd_kafka_ConfigResource_new e.res_type e.res_name with
  | none => .ok r
  | some config0 =>
      let config := { config0 with
        err := e.error_code
        errstr := admin_errstr e.error_code e.error_msg }
      match rd_list_index args
          (fun c => rd_kafka_ConfigResource_cmp c config) with
      | none => .error (.notIncluded (configResourceKey e.res_type e.res_name))
      | some orig_pos =>
          if (rd_list_elem r orig_pos).isSome then
            .error (.multipleTimes (configResourceKey e.res_type e.res_name))
          else .ok (rd_list_set r orig_pos config)

/-- Parse AlterConfigsResponse (rd_kafka_AlterConfigsResponse_parse,
source lines 2273 to 2388): an explicit BAD_MSG failure when the response
carries more resources than requested, then the per-resource loop. -/
def rd_kafka_AlterConfigsResponse_parse (args : List ConfigResource)
    (_options : AdminOptions) (reply : AlterConfigsResponse) :
    Except ParseErr (RdList ConfigResource) :=
  if args.length < reply.resources.length then
    .error (.tooManyInResponse reply.resources.length args.length)
  else
    admin_parse_loop (AlterConfigs_handle_resource args) ⟨[]⟩ reply.resources

/-- A synonym element of a DescribeConfigsResponse config entry
(version 1 only). -/
structure DCRespSynonym where
  syn_name : Option String
  syn_value : Option String
  syn_source : Int
deriving DecidableEq, Repr

/-- A config-entry element of a DescribeConfigsResponse.  The version 0
wire format carries is_default and no source or synonyms; the version 1
format carries source and synonyms and no is_default; the parser reads
only the fields of the negotiated version. -/
structure DCRespEntry where
  config_name : String
  config_value : Option String
  is_readonly : Bool
  is_default : Bool
  source : Int
  is_sensitive : Bool
  synonyms : List DCRespSynonym
deriving DecidableEq, Repr

/-- A per-resource element of a DescribeConfigsResponse. -/
structure DCRespResource where
  error_code : ErrCode
  error_msg : Option String
  res_type : Int
  res_name : String
  entries : List DCRespEntry
deriving DecidableEq, Repr

/-- A decoded DescribeConfigsResponse. -/
structure DescribeConfigsResponse where
  ApiVersion : Int
  resources : List DCRespResource
deriving DecidableEq, Repr

/-- Synonym-reading step of the DescribeConfigs parser (source lines 2607
to 2639): fail when the synonym name is NULL, otherwise build a leaf entry
carrying the wire source tag with the synonym flag set. -/
def DescribeConfigs_parse_synonym (s : DCRespSynonym) :
    Except ParseErr ConfigEntry :=
  match rd_kafka_ConfigEntry_new0 s.syn_name s.syn_value with
  | none => .error .invalidSynonym
  | some syn0 =>
      .ok (.mk syn0.kv_name syn0.kv_value
        { syn0.a with source := s.syn_source, is_synonym := true }
        syn0.synonyms)

/-- Sequential synonym reading of one config entry. -/
def DescribeConfigs_parse_synonyms (ss : List DCRespSynonym) :
    Except ParseErr (List ConfigEntry) :=
  match ss with
  | [] => .ok []
  | s :: rest =>
      match DescribeConfigs_parse_synonym s with
      | .error pe => .error pe
      | .ok syn =>
          match DescribeConfigs_parse_synonyms rest with
          | .error pe => .error pe
          | .ok syns => .ok (syn :: syns)

/-- Config-entry-reading step of the DescribeConfigs parser (source lines
2541 to 2644): create the entry, read the readonly flag, normalise the
version 0 is_default flag and the version 1 source tag into each other,
read the sensitive flag, and on version 1 read the synonyms, failing when
their count exceeds 100000. -/
def DescribeConfigs_entry_attrs (v : Int) (e : DCRespEntry) : ConfigEntryA :=
  let a0 := { ((rd_kafka_ConfigEntry_new0 (some e.config_name)
      e.config_value).get rfl).a with is_readonly := e.is_readonly }
  let a1 :=
    if v = 0 then
      let aD := { a0 with is_default := e.is_default }
      if aD.is_default then
        { aD with source := RD_KAFKA_CONFIG_SOURCE_DEFAULT_CONFIG }
      else aD
    else
      let aS := { a0 with source := e.source }
      if aS.source = RD_KAFKA_CONFIG_SOURCE_DEFAULT_CONFIG then
        { aS with is_default := true }
      else aS
  { a1 with is_sensitive := e.is_sensitive }

/-- See DescribeConfigs_parse_entry; the attribute block normalisation
above is named separately so that it can be reasoned about on its own. -/
def DescribeConfigs_parse_entry (v : Int) (e : DCRespEntry) :
    Except ParseErr ConfigEntry :=
  let entry0 : ConfigEntry :=
    (rd_kafka_ConfigEntry_new0 (some e.config_name) e.config_value).get rfl
  let a2 := DescribeConfigs_entry_attrs v e
  if v = 1 then
    if 100000 < e.synonyms.length then .error (.synonymLimit e.synonyms.length)
    else
      match DescribeConfigs_parse_synonyms e.synonyms with
      | .error pe => .error pe
      | .ok syns => .ok (.mk entry0.kv_name entry0.kv_value a2 syns)
  else .ok (.mk entry0.kv_name entry0.kv_value a2 [])

/-- Sequential config-entry reading of one resource. -/
def DescribeConfigs_parse_entries (v : Int) (es : List DCRespEntry) :
    Except ParseErr (List ConfigEntry) :=
  match es with
  | [] => .ok []
  | e :: rest =>
      match DescribeConfigs_parse_entry v e with
      | .error pe => .error pe
      | .ok entry =>
          match DescribeConfigs_parse_entries v rest with
          | .error pe => .error pe
          | .ok entries => .ok (entry :: entries)

/-- Loop body of the DescribeConfigs parser (source lines 2498 to 2676):
build the resource, skipping (with a logged warning and without reading
its entries) elements for which ConfigResource_new fails, record the
element error, read the config entries, find the original request position
by resource type and name, fail when the resource is missing from the
request or already answered, and otherwise store the result at the
original position. -/
def DescribeConfigs_handle_resource (args : List ConfigResource) (v : Int)
    (r : RdList ConfigResource) (e : DCRespResource) :
    Except ParseErr (RdList ConfigResource) :=
  match rd_kafka_ConfigResource_new e.res_type e.res_name with
  | none => .ok r
  | some config0 =>
      match DescribeConfigs_parse_entries v e.entries with
      | .error pe => .error pe
      | .ok entries =>
          let config := { config0 with
            err := e.error_code
            errstr := admin_errstr e.error_code e.error_msg
            config := entries }
          match rd_list_index args
              (fun c => rd_kafka_ConfigResource_cmp c config) with
          | none =>
              .error (.notIncluded (configResourceKey e.res_type e.res_name))
          | some orig_pos =>
              if (rd_list_elem r orig_pos).isSome then
                .error (.multipleTimes (configResourceKey e.res_type e.res_name))
              else .ok (rd_list_set r orig_pos config)

/-- Parse DescribeConfigsResponse (rd_kafka_DescribeConfigsResponse_parse,
source lines 2464 to 2696). -/
def rd_kafka_DescribeConfigsResponse_parse (args : List ConfigResource)
    (_options : AdminOptions) (reply : DescribeConfigsResponse) :
    Except ParseErr (RdList ConfigResource) :=
  if args.length < reply.resources.length then
    .error (.tooManyInResponse reply.resources.length args.length)
  else
    admin_parse_loop (DescribeConfigs_handle_resource args reply.ApiVersion)
      ⟨[]⟩ reply.resources

/-- The skip condition of the two config parsers: ConfigResource_new
returns NULL exactly when the name is empty or the wire resource type is
negative, and the element is then dropped with a warning. -/
def ConfigResource_unsupported (res_type : Int) (res_name : String) : Bool :=
  res_name.length == 0 || decide (res_type < 0)

/-- The admin request states (rko_u.admin_request.state). -/
inductive AdminState where
  | INIT
  | WAIT_BROKER
  | WAIT_CONTROLLER
  | CONSTRUCT_REQUEST
  | WAIT_RESPONSE
deriving DecidableEq, Repr

/-- The per-invocation environment of the worker: whether the client is
terminating, the monotonic clock, and the outcomes of the external
collaborators (broker and controller lookup, the request-builder send,
the response parse).  The timers, the eonce and the reply buffer are side
effects outside the value model. -/
structure WorkerEnv where
  terminating : Bool
  now : Int
  broker_up : Int → Bool
  controller_up : Bool
  send_err : ErrCode
  parse_err : ErrCode

/-- The admin request record (rko_u.admin_request), restricted to the
fields the worker reads and writes: the state, the asynchronously raised
last error (rko_err), the target broker id, the options snapshot and the
absolute deadline. -/
structure AdminRequest where
  state : AdminState
  rko_err : ErrCode
  broker_id : Int
  options : AdminOptions
  abs_timeout : Int
deriving Repr

/-- Outcome of one worker invocation: suspend keeping the updated request
(RD_KAFKA_OP_RES_KEEP), destroy silently, post a failure result carrying
the given code and destroy, or enqueue the parsed result and destroy. -/
inductive WorkerRes where
  | keep (rko : AdminRequest)
  | destroyedSilently
  | failedAndDestroyed (err : ErrCode)
  | resultEnqueued
deriving Repr

/-- Modelled from the spec: microseconds remaining until the absolute
deadline (rd_timeout_remains_us); the deadline has passed when the value
is at most zero. -/
def rd_timeout_remains_us (abs_timeout now : Int) : Int :=
  abs_timeout - now

/-- The CONSTRUCT_REQUEST arm of the worker (source lines 766 to 804):
invoke the request builder; a builder failure posts a failure result and
destroys; otherwise the request suspends in WAIT_RESPONSE. -/
def admin_worker_construct_request (env : WorkerEnv) (rko : AdminRequest) :
    WorkerRes :=
  if env.send_err ≠ ErrCode.NO_ERROR then .failedAndDestroyed env.send_err
  else .keep { rko with state := .WAIT_RESPONSE }

/-- The WAIT_BROKER arm of the worker (source lines 743 to 753): an
unavailable broker suspends the request; an available broker advances to
CONSTRUCT_REQUEST within the same invocation. -/
def admin_worker_wait_broker (env : WorkerEnv) (rko : AdminRequest) :
    WorkerRes :=
  if env.broker_up rko.broker_id then
    admin_worker_construct_request env { rko with state := .CONSTRUCT_REQUEST }
  else .keep rko

/-- The WAIT_CONTROLLER arm of the worker (source lines 755 to 763). -/
def admin_worker_wait_controller (env : WorkerEnv) (rko : AdminRequest) :
    WorkerRes :=
  if env.controller_up then
    admin_worker_construct_request env { rko with state := .CONSTRUCT_REQUEST }
  else .keep rko

/-- The WAIT_RESPONSE arm of the worker (source lines 807 to 829): a parse
failure posts a failure result; a successful parse enqueues the result;
either way the request is destroyed. -/
def admin_worker_wait_response (env : WorkerEnv) (_rko : AdminRequest) :
    WorkerRes :=
  if env.parse_err ≠ ErrCode.NO_ERROR then .failedAndDestroyed env.parse_err
  else .resultEnqueued

/-- The INIT arm of the worker (source lines 700 to 740): arm the timeout
timer (a side effect outside the value model), copy an explicitly set
broker option over the target broker id, and fall through to WAIT_BROKER
for a specific target or WAIT_CONTROLLER for the controller. -/
def admin_worker_init (env : WorkerEnv) (rko : AdminRequest) : WorkerRes :=
  let opt_broker := rd_kafka_confval_get_int rko.options.broker
  let rko := if opt_broker ≠ -1 then { rko with broker_id := opt_broker }
             else rko
  if rko.broker_id ≠ -1 then
    admin_worker_wait_broker env { rko with state := .WAIT_BROKER }
  else
    admin_worker_wait_controller env { rko with state := .WAIT_CONTROLLER }

/-- The redo switch of the worker (source lines 697 to 830): dispatch on
the request state.  The goto redo tail calls are the direct calls between
the arm functions above. -/
def admin_worker_redo (env : WorkerEnv) (rko : AdminRequest) : WorkerRes :=
  match rko.state with
  | .INIT => admin_worker_init env rko
  | .WAIT_BROKER => admin_worker_wait_broker env rko
  | .WAIT_CONTROLLER => admin_worker_wait_controller env rko
  | .CONSTRUCT_REQUEST => admin_worker_construct_request env rko
  | .WAIT_RESPONSE => admin_worker_wait_response env rko

/-- The admin worker (rd_kafka_admin_worker, source lines 644 to 838):
a terminating client destroys silently; a DESTROY last error destroys
silently; any other non-zero last error posts a failure result carrying
that code and destroys; a passed deadline posts a TIMED_OUT failure result
and destroys; only otherwise is the state dispatched. -/
def rd_kafka_admin_worker (env : WorkerEnv) (rko : AdminRequest) : WorkerRes :=
  if env.terminating then .destroyedSilently
  else if rko.rko_err = ErrCode.DESTROY then .destroyedSilently
  else if rko.rko_err ≠ ErrCode.NO_ERROR then .failedAndDestroyed rko.rko_err
  else if rd_timeout_remains_us rko.abs_timeout env.now ≤ 0 then
    .failedAndDestroyed .TIMED_OUT
  else admin_worker_redo env rko

/-- Default options used by the concrete evaluations below. -/
def optsDefault : AdminOptions :=
  rd_kafka_AdminOptions_init 60000 none

/-- Concrete worker environment: not terminating, clock at zero, no broker
or controller available. -/
def c1Env : WorkerEnv :=
  { terminating := false, now := 0, broker_up := fun _ => false,
    controller_up := false, send_err := .NO_ERROR, parse_err := .NO_ERROR }

/-- Concrete admin request whose last error is a transport-style non-zero,
non-destroy code. -/
def c1Rko : AdminRequest :=
  { state := .INIT, rko_err := .other 5, broker_id := -1,
    options := optsDefault, abs_timeout := 1000000 }

/-- Concrete config-resource args list with one TOPIC resource named t. -/
def cfgArgsT : List ConfigResource :=
  [{ restype := 2, name := "t", err := .NO_ERROR, errstr := none,
     config := [] }]

/-- The resource ConfigResource_new builds for type 2 and name t. -/
def cfgT0 : ConfigResource :=
  { restype := 2, name := "t", err := .NO_ERROR, errstr := none,
    config := [] }

/-- Concrete AlterConfigsResponse element for the TOPIC resource t. -/
def c2wACE : ACRespResource :=
  { error_code := .NO_ERROR, error_msg := none, res_type := 2,
    res_name := "t" }

/-- Concrete DescribeConfigsResponse element for the TOPIC resource t with
no config entries. -/
def c2wDCE : DCRespResource :=
  { error_code := .NO_ERROR, error_msg := none, res_type := 2,
    res_name := "t", entries := [] }

/-- Concrete CreateTopics args list with two topics. -/
def c3Args : List NewTopic :=
  [{ topic := "a" }, { topic := "b" }]

/-- Concrete CreateTopicsResponse answering only the first of the two
requested topics. -/
def c3Reply : CreateTopicsResponse :=
  { ApiVersion := 0, topics := [{ ktopic := "a", error_code := .NO_ERROR,
                                  error_msg := none }] }

/-- The result sequence the CreateTopics parser builds for c3Reply. -/
def c3Expected : RdList TopicResult :=
  ⟨[some { topic := "a", err := .NO_ERROR, errstr := none }]⟩

/-- Concrete one-topic CreateTopics args list. -/
def c3wArgs : List NewTopic :=
  [{ topic := "t" }]

/-- Concrete CreateTopicsResponse answering the single requested topic. -/
def c3wReply : CreateTopicsResponse :=
  { ApiVersion := 0, topics := [{ ktopic := "t", error_code := .NO_ERROR,
                                  error_msg := none }] }

/-- The result sequence the CreateTopics parser builds for c3wReply. -/
def c3wRes : RdList TopicResult :=
  ⟨[some { topic := "t", err := .NO_ERROR, errstr := none }]⟩

/-- A zero config entry used as the default of list extractions. -/
def dummyConfigEntry : ConfigEntry :=
  .mk "" none { source := 0, is_readonly := false, is_default := false,
                is_sensitive := false, is_synonym := false } []

/-- Concrete version 1 DescribeConfigsResponse for the TOPIC resource t:
one entry with a non-default source carrying one synonym whose source tag
is DEFAULT_CONFIG. -/
def c5Reply : DescribeConfigsResponse :=
  { ApiVersion := 1,
    resources := [{ error_code := .NO_ERROR, error_msg := none,
                    res_type := 2, res_name := "t",
                    entries := [{ config_name := "p",
                                  config_value := some "v",
                                  is_readonly := false, is_default := false,
                                  source := 1, is_sensitive := false,
                                  synonyms := [{ syn_name := some "p",
                                                 syn_value := some "d",
                                                 syn_source := 5 }] }] }] }

/-- The config entry the DescribeConfigs parser builds from c5Reply,
synonym included. -/
def c5ExpectedEntry : ConfigEntry :=
  .mk "p" (some "v")
    { source := 1, is_readonly := false, is_default := false,
      is_sensitive := false, is_synonym := false }
    [.mk "p" (some "d")
      { source := 5, is_readonly := false, is_default := false,
        is_sensitive := false, is_synonym := true } []]

/-- The result sequence the DescribeConfigs parser builds for c5Reply. -/
def c5Expected : RdList ConfigResource :=
  ⟨[some { restype := 2, name := "t", err := .NO_ERROR, errstr := none,
           config := [c5ExpectedEntry] }]⟩

/-- Concrete version 1 wire config entry with the DEFAULT_CONFIG source
tag and no synonyms. -/
def c5wE : DCRespEntry :=
  { config_name := "n", config_value := none, is_readonly := false,
    is_default := false, source := 5, is_sensitive := false,
    synonyms := [] }

/-- The config entry the DescribeConfigs entry reader builds from c5wE on
version 1. -/
def c5wEntry : ConfigEntry :=
  .mk "n" none
    { source := 5, is_readonly := false, is_default := true,
      is_sensitive := false, is_synonym := false } []

/-- Concrete CreateTopicsResponse with one topic, used against an empty
args list. -/
def c6wReply : CreateTopicsResponse :=
  { ApiVersion := 0, topics := [{ ktopic := "t", error_code := .NO_ERROR,
                                  error_msg := none }] }

/-- Concrete args list with two BROKER resources, the first of which has a
name that does not parse to an integer. -/
def c7Cfgs : List ConfigResource :=
  [{ restype := 4, name := "x", err := .NO_ERROR, errstr := none,
     config := [] },
   { restype := 4, name := "1", err := .NO_ERROR, errstr := none,
     config := [] }]

/-- Concrete args list with a single well-named BROKER resource. -/
def c7wB : ConfigResource :=
  { restype := 4, name := "1", err := .NO_ERROR, errstr := none,
    config := [] }

/-- Concrete single-resource list around c7wB. -/
def c7wCfgs : List ConfigResource :=
  [c7wB]

theorem rd_list_cnt_set {α : Type} (l : RdList α) (i : Nat) (x : α) :
    rd_list_cnt (rd_list_set l i x) = max (rd_list_cnt l) (i + 1) := by
  unfold rd_list_cnt rd_list_set
  split
  · simp only [List.length_set]
    omega
  · simp only [List.length_append, List.length_replicate, List.length_cons,
      List.length_nil]
    omega

theorem countP_isSome_replicate_none {α : Type} (k : Nat) :
    (List.replicate k (none : Option α)).countP (fun o => o.isSome) = 0 := by
  induction k with
  | zero => rfl
  | succ n ih => simp [List.replicate_succ, List.countP_cons, ih]

theorem countP_isSome_set {α : Type} (xs : List (Option α)) (i : Nat) (x : α)
    (hlen : i < xs.length) (hget : xs.getD i none = none) :
    (xs.set i (some x)).countP (fun o => o.isSome) =
      xs.countP (fun o => o.isSome) + 1 := by
  induction xs generalizing i with
  | nil => simp at hlen
  | cons y ys ih =>
    cases i with
    | zero =>
      simp only [List.getD_cons_zero] at hget
      subst hget
      simp [List.countP_cons]
    | succ j =>
      simp only [List.length_cons] at hlen
      simp only [List.getD_cons_succ] at hget
      simp only [List.set_cons_succ, List.countP_cons,
        ih j (by omega) hget]
      omega

theorem rd_list_some_cnt_set {α : Type} (l : RdList α) (i : Nat) (x : α)
    (h : rd_list_elem l i = none) :
    rd_list_some_cnt (rd_list_set l i x) = rd_list_some_cnt l + 1 := by
  unfold rd_list_some_cnt rd_list_set
  unfold rd_list_elem at h
  split
  · exact countP_isSome_set _ _ _ (by assumption) h
  · simp [List.countP_append, List.countP_cons,
      countP_isSome_replicate_none]

theorem rd_list_some_cnt_le {α : Type} (l : RdList α) :
    rd_list_some_cnt l ≤ rd_list_cnt l :=
  List.countP_le_length _

theorem rd_list_index0_lt {α : Type} (f : α → Bool) :
    ∀ (xs : List α) (s i : Nat),
      rd_list_index0 f xs s = some i → i < s + xs.length := by
  intro xs
  induction xs with
  | nil => intro s i h; simp [rd_list_index0] at h
  | cons a as ih =>
    intro s i h
    unfold rd_list_index0 at h
    split at h
    · simp only [Option.some.injEq] at h
      subst h
      simp only [List.length_cons]
      omega
    · have := ih (s + 1) i h
      simp only [List.length_cons]
      omega

theorem rd_list_index_lt {α : Type} (l : List α) (f : α → Bool) (i : Nat)
    (h : rd_list_index l f = some i) : i < l.length := by
  have := rd_list_index0_lt f l 0 i h
  omega

theorem ConfigResource_new_none_iff (t : Int) (n : String) :
    rd_kafka_ConfigResource_new t n = none ↔
      ConfigResource_unsupported t n = true := by
  simp only [rd_kafka_ConfigResource_new, ConfigResource_unsupported]
  split
  · rename_i hcond
    simp only [Bool.or_eq_true, beq_iff_eq, decide_eq_true_eq]
    simpa using hcond
  · rename_i hcond
    simp only [Bool.or_eq_true, beq_iff_eq, decide_eq_true_eq]
    constructor
    · intro h; cases h
    · intro h; exact absurd h hcond

theorem CreateTopics_step_shape (args : List NewTopic)
    (options : AdminOptions) (v : Int) (r : RdList TopicResult)
    (e : CTRespTopic) (r' : RdList TopicResult)
    (h : CreateTopics_handle_topic args options v r e = .ok r') :
    ∃ i x, i < args.length ∧ rd_list_elem r i = none ∧
      r' = rd_list_set r i x := by
  simp only [CreateTopics_handle_topic] at h
  split at h
  · cases h
  · rename_i orig_pos hidx
    split at h
    · cases h
    · rename_i hsome
      simp only [Except.ok.injEq] at h
      exact ⟨orig_pos, _, rd_list_index_lt _ _ _ hidx,
        Option.not_isSome_iff_eq_none.mp (by simp [hsome]), h.symm⟩

theorem DeleteTopics_step_shape (args : List DeleteTopic)
    (options : AdminOptions) (r : RdList TopicResult)
    (e : DTRespTopic) (r' : RdList TopicResult)
    (h : DeleteTopics_handle_topic args options r e = .ok r') :
    ∃ i x, i < args.length ∧ rd_list_elem r i = none ∧
      r' = rd_list_set r i x := by
  simp only [DeleteTopics_handle_topic] at h
  split at h
  · cases h
  · rename_i orig_pos hidx
    split at h
    · cases h
    · rename_i hsome
      simp only [Except.ok.injEq] at h
      exact ⟨orig_pos, _, rd_list_index_lt _ _ _ hidx,
        Option.not_isSome_iff_eq_none.mp (by simp [hsome]), h.symm⟩

theorem CreatePartitions_step_shape (args : List NewPartitions)
    (options : AdminOptions) (r : RdList TopicResult)
    (e : CPRespTopic) (r' : RdList TopicResult)
    (h : CreatePartitions_handle_topic args options r e = .ok r') :
    ∃ i x, i < args.length ∧ rd_list_elem r i = none ∧
      r' = rd_list_set r i x := by
  simp only [CreatePartitions_handle_topic] at h
  split at h
  · cases h
  · rename_i orig_pos hidx
    split at h
    · cases h
    · rename_i hsome
      simp only [Except.ok.injEq] at h
      exact ⟨orig_pos, _, rd_list_index_lt _ _ _ hidx,
        Option.not_isSome_iff_eq_none.mp (by simp [hsome]), h.symm⟩

theorem AlterConfigs_step_shape (args : List ConfigResource)
    (r : RdList ConfigResource) (e : ACRespResource)
    (r' : RdList ConfigResource)
    (h : AlterConfigs_handle_resource args r e = .ok r') :
    (ConfigResource_unsupported e.res_type e.res_name = true ∧ r' = r) ∨
    (ConfigResource_unsupported e.res_type e.res_name = false ∧
      ∃ i x, i < args.length ∧ rd_list_elem r i = none ∧
        r' = rd_list_set r i x) := by
  simp only [AlterConfigs_handle_resource] at h
  split at h
  · rename_i hnew
    simp only [Except.ok.injEq] at h
    exact Or.inl ⟨(ConfigResource_new_none_iff _ _).mp hnew, h.symm⟩
  · rename_i config0 hnew
    have hns : ConfigResource_unsupported e.res_type e.res_name = false := by
      by_contra hc
      rw [(ConfigResource_new_none_iff e.res_type e.res_name).mpr
        (by revert hc; cases ConfigResource_unsupported e.res_type e.res_name <;>
          simp)] at hnew
      cases hnew
    refine Or.inr ⟨hns, ?_⟩
    split at h
    · cases h
    · rename_i orig_pos hidx
      split at h
      · cases h
      · rename_i hsome
        simp only [Except.ok.injEq] at h
        exact ⟨orig_pos, _, rd_list_index_lt _ _ _ hidx,
          Option.not_isSome_iff_eq_none.mp (by simp [hsome]), h.symm⟩

theorem DescribeConfigs_step_shape (args : List ConfigResource) (v : Int)
    (r : RdList ConfigResource) (e : DCRespResource)
    (r' : RdList ConfigResource)
    (h : DescribeConfigs_handle_resource args v r e = .ok r') :
    (ConfigResource_unsupported e.res_type e.res_name = true ∧ r' = r) ∨
    (ConfigResource_unsupported e.res_type e.res_name = false ∧
      ∃ i x, i < args.length ∧ rd_list_elem r i = none ∧
        r' = rd_list_set r i x) := by
  simp only [DescribeConfigs_handle_resource] at h
  split at h
  · rename_i hnew
    simp only [Except.ok.injEq] at h
    exact Or.inl ⟨(ConfigResource_new_none_iff _ _).mp hnew, h.symm⟩
  · rename_i config0 hnew
    have hns : ConfigResource_unsupported e.res_type e.res_name = false := by
      by_contra hc
      rw [(ConfigResource_new_none_iff e.res_type e.res_name).mpr
        (by revert hc; cases ConfigResource_unsupported e.res_type e.res_name <;>
          simp)] at hnew
      cases hnew
    refine Or.inr ⟨hns, ?_⟩
    split at h
    · cases h
    · rename_i entries hentries
      split at h
      · cases h
      · rename_i orig_pos hidx
        split at h
        · cases h
        · rename_i hsome
          simp only [Except.ok.injEq] at h
          exact ⟨orig_pos, _, rd_list_index_lt _ _ _ hidx,
            Option.not_isSome_iff_eq_none.mp (by simp [hsome]), h.symm⟩

theorem admin_parse_loop_place_inv {α β : Type} (n : Nat) (skip : β → Bool)
    (step : RdList α → β → Except ParseErr (RdList α))
    (hstep : ∀ r e r', step r e = .ok r' →
      (skip e = true ∧ r' = r) ∨
      (skip e = false ∧ ∃ i x, i < n ∧ rd_list_elem r i = none ∧
        r' = rd_list_set r i x)) :
    ∀ (es : List β) (r r' : RdList α),
      admin_parse_loop step r es = .ok r' → rd_list_cnt r ≤ n →
      rd_list_cnt r' ≤ n ∧
      rd_list_some_cnt r' =
        rd_list_some_cnt r + (es.filter (fun e => !skip e)).length := by
  intro es
  induction es with
  | nil =>
    intro r r' h hle
    simp only [admin_parse_loop, Except.ok.injEq] at h
    subst h
    simp [hle]
  | cons e es ih =>
    intro r r' h hle
    unfold admin_parse_loop at h
    cases hs : step r e with
    | error pe => rw [hs] at h; cases h
    | ok r1 =>
      rw [hs] at h
      rcases hstep r e r1 hs with ⟨hskip, hr⟩ | ⟨hskip, i, x, hi, hel, hr⟩
      · subst hr
        have H := ih _ r' h hle
        rw [List.filter_cons]
        simp only [hskip, Bool.not_true, Bool.false_eq_true, if_false]
        exact H
      · subst hr
        have hcnt1 : rd_list_cnt (rd_list_set r i x) ≤ n := by
          rw [rd_list_cnt_set]; omega
        have H := ih _ r' h hcnt1
        refine ⟨H.1, ?_⟩
        rw [H.2, rd_list_some_cnt_set r i x hel, List.filter_cons]
        simp only [hskip, Bool.not_false, if_true, List.length_cons]
        omega

theorem DescribeConfigs_parse_synonym_flags (s : DCRespSynonym)
    (syn : ConfigEntry) (h : DescribeConfigs_parse_synonym s = .ok syn) :
    syn.a.is_default = false ∧ syn.a.is_synonym = true := by
  simp only [DescribeConfigs_parse_synonym] at h
  split at h
  · cases h
  · rename_i syn0 hnew
    cases hn : s.syn_name with
    | none => rw [hn] at hnew; simp [rd_kafka_ConfigEntry_new0] at hnew
    | some nm =>
      rw [hn] at hnew
      simp only [rd_kafka_ConfigEntry_new0, Option.some.injEq] at hnew
      subst hnew
      simp only [Except.ok.injEq] at h
      subst h
      simp [ConfigEntry.a]

theorem DescribeConfigs_parse_synonyms_flags :
    ∀ (ss : List DCRespSynonym) (syns : List ConfigEntry),
      DescribeConfigs_parse_synonyms ss = .ok syns →
      ∀ syn ∈ syns, syn.a.is_default = false ∧ syn.a.is_synonym = true := by
  intro ss
  induction ss with
  | nil =>
    intro syns h
    simp only [DescribeConfigs_parse_synonyms, Except.ok.injEq] at h
    subst h
    simp
  | cons s rest ih =>
    intro syns h
    unfold DescribeConfigs_parse_synonyms at h
    cases h1 : DescribeConfigs_parse_synonym s with
    | error pe => rw [h1] at h; cases h
    | ok syn =>
      rw [h1] at h
      cases h2 : DescribeConfigs_parse_synonyms rest with
      | error pe => rw [h2] at h; cases h
      | ok syns0 =>
        rw [h2] at h
        simp only [Except.ok.injEq] at h
        subst h
        intro x hx
        rcases List.mem_cons.mp hx with hx | hx
        · subst hx
          exact DescribeConfigs_parse_synonym_flags s x h1
        · exact ih syns0 h2 x hx

theorem broker_parsed_nonneg (name : String)
    (h : broker_name_rejected name = false) :
    0 ≤ broker_name_parsed name := by
  unfold broker_name_rejected at h
  simp only [Bool.or_eq_false_iff, Bool.not_eq_false,
    decide_eq_false_iff_not, not_lt, beq_eq_false_iff_ne] at h
  exact h.2

theorem gsb0_no_broker :
    ∀ (l : List ConfigResource) (b : Int),
      l.filter (fun c => c.restype == RD_KAFKA_RESOURCE_BROKER) = [] →
      rd_kafka_ConfigResource_get_single_broker_id0 l b = .ok b := by
  intro l
  induction l with
  | nil => intro b _; rfl
  | cons c rest ih =>
    intro b hf
    rw [List.filter_cons] at hf
    unfold rd_kafka_ConfigResource_get_single_broker_id0
    split
    · rename_i hne
      apply ih
      simpa [show (c.restype == RD_KAFKA_RESOURCE_BROKER) = false by
        simpa using hne] using hf
    · rename_i heq
      rw [if_pos (by simpa using not_not.mp heq)] at hf
      cases hf

theorem gsb0_conflict :
    ∀ (l : List ConfigResource) (b : Int), b ≠ -1 →
      l.filter (fun c => c.restype == RD_KAFKA_RESOURCE_BROKER) ≠ [] →
      rd_kafka_ConfigResource_get_single_broker_id0 l b =
        .error (.CONFLICT, conflictErrstr) := by
  intro l
  induction l with
  | nil => intro b _ hne; simp at hne
  | cons c rest ih =>
    intro b hb hne
    rw [List.filter_cons] at hne
    unfold rd_kafka_ConfigResource_get_single_broker_id0
    by_cases hc : c.restype = RD_KAFKA_RESOURCE_BROKER
    · rw [if_neg (by simpa using hc), if_pos hb]
    · rw [if_pos (by simpa using hc)]
      apply ih b hb
      intro hemp
      apply hne
      rw [if_neg (by simpa using hc), hemp]

theorem gsb0_first :
    ∀ (l : List ConfigResource) (b : ConfigResource)
      (rest : List ConfigResource),
      l.filter (fun c => c.restype == RD_KAFKA_RESOURCE_BROKER) = b :: rest →
      rd_kafka_ConfigResource_get_single_broker_id0 l (-1) =
        (if broker_name_rejected b.name then
          .error (.INVALID_ARG, invalidBrokerErrstr b.name)
        else if rest.isEmpty then .ok (broker_name_parsed b.name)
        else .error (.CONFLICT, conflictErrstr)) := by
  intro l
  induction l with
  | nil => intro b rest hf; cases hf
  | cons c l' ih =>
    intro b rest hf
    rw [List.filter_cons] at hf
    by_cases hc : c.restype = RD_KAFKA_RESOURCE_BROKER
    · rw [if_pos (by simpa using hc)] at hf
      simp only [List.cons.injEq] at hf
      obtain ⟨hcb, hrest⟩ := hf
      subst hcb
      unfold rd_kafka_ConfigResource_get_single_broker_id0
      rw [if_neg (by simpa using hc), if_neg (by simp)]
      by_cases hrej : broker_name_rejected c.name
      · rw [if_pos hrej, if_pos hrej]
      · rw [if_neg hrej, if_neg hrej]
        have hpos : 0 ≤ broker_name_parsed c.name :=
          broker_parsed_nonneg c.name (by simpa using hrej)
        cases rest with
        | nil =>
          simp only [List.isEmpty_nil, if_true]
          exact gsb0_no_broker l' _ hrest
        | cons r0 rest' =>
          simp only [List.isEmpty_cons, Bool.false_eq_true, if_false]
          exact gsb0_conflict l' _ (by omega) (by rw [hrest]; simp)
    · rw [if_neg (by simpa using hc)] at hf
      unfold rd_kafka_ConfigResource_get_single_broker_id0
      rw [if_pos (by simpa using hc)]
      exact ih b rest hf

/-- C1: On every invocation of the admin worker where the client is not
terminating and the last error is not DESTROY, the worker checks errors
before the deadline and in this order: any other non-zero last error posts
a failure result carrying that code and destroys the request; otherwise a
passed absolute deadline posts a TIMED_OUT failure result and destroys the
request; only otherwise is the request state dispatched. -/
theorem C1_worker_precheck_order :
    ∀ (env : WorkerEnv) (rko : AdminRequest),
      env.terminating = false → rko.rko_err ≠ ErrCode.DESTROY →
      ((rko.rko_err ≠ ErrCode.NO_ERROR →
          rd_kafka_admin_worker env rko = .failedAndDestroyed rko.rko_err) ∧
       (rko.rko_err = ErrCode.NO_ERROR →
          rd_timeout_remains_us rko.abs_timeout env.now ≤ 0 →
          rd_kafka_admin_worker env rko =
            .failedAndDestroyed ErrCode.TIMED_OUT) ∧
       (rko.rko_err = ErrCode.NO_ERROR →
          0 < rd_timeout_remains_us rko.abs_timeout env.now →
          rd_kafka_admin_worker env rko = admin_worker_redo env rko)) := by
  intro env rko hterm hdest
  unfold rd_kafka_admin_worker
  rw [if_neg (by simp [hterm]), if_neg hdest]
  refine ⟨?_, ?_, ?_⟩
  · intro herr
    rw [if_pos herr]
  · intro herr hdl
    rw [if_neg (by simp [herr]), if_pos hdl]
  · intro herr hdl
    rw [if_neg (by simp [herr]), if_neg (by omega)]

/-- Witness for C1 at a concrete environment and request. -/
theorem C1_worker_precheck_order_witness :
    (c1Env.terminating = false ∧ c1Rko.rko_err ≠ ErrCode.DESTROY ∧
      c1Rko.rko_err ≠ ErrCode.NO_ERROR) ∧
    rd_kafka_admin_worker c1Env c1Rko =
      .failedAndDestroyed (ErrCode.other 5) :=
  ⟨⟨rfl, by decide, by decide⟩,
    (C1_worker_precheck_order c1Env c1Rko rfl (by decide)).1 (by decide)⟩

/-- C2: For every admin response parser and every response element, the
element result is stored at the index of the first matching entry of the
request args list, matching by topic name for CreateTopics, DeleteTopics
and CreatePartitions and by resource type and name for AlterConfigs and
DescribeConfigs; a missing match fails parsing with the
not-included-in-original-request error, and an already-occupied index
fails parsing with the returned-multiple-times error.  For the two config
parsers the characterisation is stated for elements whose resource is
constructible (the others are skipped) and, for DescribeConfigs, whose
entries read successfully. -/
theorem C2_element_placement :
    (∀ (args : List NewTopic) (options : AdminOptions) (v : Int)
        (r : RdList TopicResult) (e : CTRespTopic),
      CreateTopics_handle_topic args options v r e =
        match rd_list_index args
            (fun nt => rd_kafka_NewTopic_cmp nt { topic := e.ktopic }) with
        | none => .error (.notIncluded e.ktopic)
        | some orig_pos =>
            if (rd_list_elem r orig_pos).isSome then
              .error (.multipleTimes e.ktopic)
            else .ok (rd_list_set r orig_pos
              (CreateTopics_build_result v options e))) ∧
    (∀ (args : List DeleteTopic) (options : AdminOptions)
        (r : RdList TopicResult) (e : DTRespTopic),
      DeleteTopics_handle_topic args options r e =
        match rd_list_index args
            (fun dt => rd_kafka_DeleteTopic_cmp dt { topic := e.ktopic }) with
        | none => .error (.notIncluded e.ktopic)
        | some orig_pos =>
            if (rd_list_elem r orig_pos).isSome then
              .error (.multipleTimes e.ktopic)
            else .ok (rd_list_set r orig_pos
              (DeleteTopics_build_result options e))) ∧
    (∀ (args : List NewPartitions) (options : AdminOptions)
        (r : RdList TopicResult) (e : CPRespTopic),
      CreatePartitions_handle_topic args options r e =
        match rd_list_index args
            (fun np => rd_kafka_NewPartitions_cmp np { topic := e.ktopic }) with
        | none => .error (.notIncluded e.ktopic)
        | some orig_pos =>
            if (rd_list_elem r orig_pos).isSome then
              .error (.multipleTimes e.ktopic)
            else .ok (rd_list_set r orig_pos
              (CreatePartitions_build_result options e))) ∧
    (∀ (args : List ConfigResource) (r : RdList ConfigResource)
        (e : ACRespResource) (config0 : ConfigResource),
      rd_kafka_ConfigResource_new e.res_type e.res_name = some config0 →
      AlterConfigs_handle_resource args r e =
        (let config := { config0 with
          err := e.error_code
          errstr := admin_errstr e.error_code e.error_msg }
        match rd_list_index args
            (fun c => rd_kafka_ConfigResource_cmp c config) with
        | none =>
            .error (.notIncluded (configResourceKey e.res_type e.res_name))
        | some orig_pos =>
            if (rd_list_elem r orig_pos).isSome then
              .error (.multipleTimes (configResourceKey e.res_type e.res_name))
            else .ok (rd_list_set r orig_pos config))) ∧
    (∀ (args : List ConfigResource) (v : Int) (r : RdList ConfigResource)
        (e : DCRespResource) (config0 : ConfigResource)
        (entries : List ConfigEntry),
      rd_kafka_ConfigResource_new e.res_type e.res_name = some config0 →
      DescribeConfigs_parse_entries v e.entries = .ok entries →
      DescribeConfigs_handle_resource args v r e =
        (let config := { config0 with
          err := e.error_code
          errstr := admin_errstr e.error_code e.error_msg
          config := entries }
        match rd_list_index args
            (fun c => rd_kafka_ConfigResource_cmp c config) with
        | none =>
            .error (.notIncluded (configResourceKey e.res_type e.res_name))
        | some orig_pos =>
            if (rd_list_elem r orig_pos).isSome then
              .error (.multipleTimes (configResourceKey e.res_type e.res_name))
            else .ok (rd_list_set r orig_pos config))) := by
  refine ⟨?_, ?_, ?_, ?_, ?_⟩
  · intro args options v r e
    rfl
  · intro args options r e
    rfl
  · intro args options r e
    rfl
  · intro args r e config0 hnew
    simp only [AlterConfigs_handle_resource, hnew]
  · intro args v r e config0 entries hnew hentries
    simp only [DescribeConfigs_handle_resource, hnew, hentries]

/-- Witness for C2 at concrete config-parser inputs (the two conjuncts
with hypotheses). -/
theorem C2_element_placement_witness :
    (rd_kafka_ConfigResource_new c2wACE.res_type c2wACE.res_name =
        some cfgT0 ∧
      DescribeConfigs_parse_entries 1 c2wDCE.entries = .ok []) ∧
    (AlterConfigs_handle_resource cfgArgsT ⟨[]⟩ c2wACE =
        (let config := { cfgT0 with
          err := c2wACE.error_code
          errstr := admin_errstr c2wACE.error_code c2wACE.error_msg }
        match rd_list_index cfgArgsT
            (fun c => rd_kafka_ConfigResource_cmp c config) with
        | none =>
            .error (.notIncluded
              (configResourceKey c2wACE.res_type c2wACE.res_name))
        | some orig_pos =>
            if (rd_list_elem (⟨[]⟩ : RdList ConfigResource) orig_pos).isSome
              then
              .error (.multipleTimes
                (configResourceKey c2wACE.res_type c2wACE.res_name))
            else .ok (rd_list_set ⟨[]⟩ orig_pos config))) ∧
    (DescribeConfigs_handle_resource cfgArgsT 1 ⟨[]⟩ c2wDCE =
        (let config := { cfgT0 with
          err := c2wDCE.error_code
          errstr := admin_errstr c2wDCE.error_code c2wDCE.error_msg
          config := ([] : List ConfigEntry) }
        match rd_list_index cfgArgsT
            (fun c => rd_kafka_ConfigResource_cmp c config) with
        | none =>
            .error (.notIncluded
              (configResourceKey c2wDCE.res_type c2wDCE.res_name))
        | some orig_pos =>
            if (rd_list_elem (⟨[]⟩ : RdList ConfigResource) orig_pos).isSome
              then
              .error (.multipleTimes
                (configResourceKey c2wDCE.res_type c2wDCE.res_name))
            else .ok (rd_list_set ⟨[]⟩ orig_pos config))) :=
  ⟨⟨rfl, rfl⟩,
    C2_element_placement.2.2.2.1 cfgArgsT ⟨[]⟩ c2wACE cfgT0 rfl,
    C2_element_placement.2.2.2.2 cfgArgsT 1 ⟨[]⟩ c2wDCE cfgT0 [] rfl rfl⟩

/-- Counterexample to C3 as stated: the CreateTopics parser accepts a
response that answers only one of the two requested topics, and the
resulting per-element sequence has length 1 while the args sequence has
length 2 (and CreateTopics is not within the claimed exception). -/
theorem C3_result_length_counterexample :
    rd_kafka_CreateTopicsResponse_parse c3Args optsDefault c3Reply =
      .ok c3Expected ∧
    rd_list_cnt c3Expected ≠ c3Args.length :=
  ⟨rfl, by decide⟩

/-- C3 (amended): for every successfully parsed admin response, the
per-element result sequence has length at most the length of the args
sequence, and it has length equal to the args length whenever the number
of response elements (for AlterConfigs and DescribeConfigs: the number of
elements whose resource type and name are constructible, the others being
skipped with a warning) equals the args length.  This sufficient condition
is not necessary: a response answering only a later requested entry also
reaches full length, with the earlier slots left unset (NULL). -/
theorem C3_result_length_amended :
    (∀ (args : List NewTopic) (options : AdminOptions)
        (reply : CreateTopicsResponse) (r : RdList TopicResult),
      rd_kafka_CreateTopicsResponse_parse args options reply = .ok r →
      rd_list_cnt r ≤ args.length ∧
      (reply.topics.length = args.length → rd_list_cnt r = args.length)) ∧
    (∀ (args : List DeleteTopic) (options : AdminOptions)
        (reply : DeleteTopicsResponse) (r : RdList TopicResult),
      rd_kafka_DeleteTopicsResponse_parse args options reply = .ok r →
      rd_list_cnt r ≤ args.length ∧
      (reply.topics.length = args.length → rd_list_cnt r = args.length)) ∧
    (∀ (args : List NewPartitions) (options : AdminOptions)
        (reply : CreatePartitionsResponse) (r : RdList TopicResult),
      rd_kafka_CreatePartitionsResponse_parse args options reply = .ok r →
      rd_list_cnt r ≤ args.length ∧
      (reply.topics.length = args.length → rd_list_cnt r = args.length)) ∧
    (∀ (args : List ConfigResource) (options : AdminOptions)
        (reply : AlterConfigsResponse) (r : RdList ConfigResource),
      rd_kafka_AlterConfigsResponse_parse args options reply = .ok r →
      rd_list_cnt r ≤ args.length ∧
      ((reply.resources.filter (fun e =>
          !ConfigResource_unsupported e.res_type e.res_name)).length =
          args.length →
        rd_list_cnt r = args.length)) ∧
    (∀ (args : List ConfigResource) (options : AdminOptions)
        (reply : DescribeConfigsResponse) (r : RdList ConfigResource),
      rd_kafka_DescribeConfigsResponse_parse args options reply = .ok r →
      rd_list_cnt r ≤ args.length ∧
      ((reply.resources.filter (fun e =>
          !ConfigResource_unsupported e.res_type e.res_name)).length =
          args.length →
        rd_list_cnt r = args.length)) := by
  refine ⟨?_, ?_, ?_, ?_, ?_⟩
  · intro args options reply r h
    unfold rd_kafka_CreateTopicsResponse_parse at h
    split at h
    · cases h
    · have hstep : ∀ (r0 : RdList TopicResult) (e : CTRespTopic) r1,
          CreateTopics_handle_topic args options reply.ApiVersion r0 e =
            .ok r1 →
          ((fun (_ : CTRespTopic) => false) e = true ∧ r1 = r0) ∨
          ((fun (_ : CTRespTopic) => false) e = false ∧
            ∃ i x, i < args.length ∧ rd_list_elem r0 i = none ∧
              r1 = rd_list_set r0 i x) :=
        fun r0 e r1 hh => Or.inr ⟨rfl,
          CreateTopics_step_shape args options reply.ApiVersion r0 e r1 hh⟩
      have H := admin_parse_loop_place_inv args.length _ _ hstep
        reply.topics ⟨[]⟩ r h (by simp [rd_list_cnt])
      refine ⟨H.1, ?_⟩
      intro hlen
      have h2 := H.2
      simp only [Bool.not_false, List.filter_true] at h2
      have h0 : rd_list_some_cnt (⟨[]⟩ : RdList TopicResult) = 0 := rfl
      have hle2 := rd_list_some_cnt_le r
      omega
  · intro args options reply r h
    unfold rd_kafka_DeleteTopicsResponse_parse at h
    split at h
    · cases h
    · have hstep : ∀ (r0 : RdList TopicResult) (e : DTRespTopic) r1,
          DeleteTopics_handle_topic args options r0 e = .ok r1 →
          ((fun (_ : DTRespTopic) => false) e = true ∧ r1 = r0) ∨
          ((fun (_ : DTRespTopic) => false) e = false ∧
            ∃ i x, i < args.length ∧ rd_list_elem r0 i = none ∧
              r1 = rd_list_set r0 i x) :=
        fun r0 e r1 hh => Or.inr ⟨rfl,
          DeleteTopics_step_shape args options r0 e r1 hh⟩
      have H := admin_parse_loop_place_inv args.length _ _ hstep
        reply.topics ⟨[]⟩ r h (by simp [rd_list_cnt])
      refine ⟨H.1, ?_⟩
      intro hlen
      have h2 := H.2
      simp only [Bool.not_false, List.filter_true] at h2
      have h0 : rd_list_some_cnt (⟨[]⟩ : RdList TopicResult) = 0 := rfl
      have hle2 := rd_list_some_cnt_le r
      omega
  · intro args options reply r h
    unfold rd_kafka_CreatePartitionsResponse_parse at h
    split at h
    · cases h
    · have hstep : ∀ (r0 : RdList TopicResult) (e : CPRespTopic) r1,
          CreatePartitions_handle_topic args options r0 e = .ok r1 →
          ((fun (_ : CPRespTopic) => false) e = true ∧ r1 = r0) ∨
          ((fun (_ : CPRespTopic) => false) e = false ∧
            ∃ i x, i < args.length ∧ rd_list_elem r0 i = none ∧
              r1 = rd_list_set r0 i x) :=
        fun r0 e r1 hh => Or.inr ⟨rfl,
          CreatePartitions_step_shape args options r0 e r1 hh⟩
      have H := admin_parse_loop_place_inv args.length _ _ hstep
        reply.topics ⟨[]⟩ r h (by simp [rd_list_cnt])
      refine ⟨H.1, ?_⟩
      intro hlen
      have h2 := H.2
      simp only [Bool.not_false, List.filter_true] at h2
      have h0 : rd_list_some_cnt (⟨[]⟩ : RdList TopicResult) = 0 := rfl
      have hle2 := rd_list_some_cnt_le r
      omega
  · intro args options reply r h
    unfold rd_kafka_AlterConfigsResponse_parse at h
    split at h
    · cases h
    · have hstep : ∀ (r0 : RdList ConfigResource) (e : ACRespResource) r1,
          AlterConfigs_handle_resource args r0 e = .ok r1 →
          ((fun (e : ACRespResource) =>
              ConfigResource_unsupported e.res_type e.res_name) e = true ∧
            r1 = r0) ∨
          ((fun (e : ACRespResource) =>
              ConfigResource_unsupported e.res_type e.res_name) e = false ∧
            ∃ i x, i < args.length ∧ rd_list_elem r0 i = none ∧
              r1 = rd_list_set r0 i x) :=
        fun r0 e r1 hh => AlterConfigs_step_shape args r0 e r1 hh
      have H := admin_parse_loop_place_inv args.length _ _ hstep
        reply.resources ⟨[]⟩ r h (by simp [rd_list_cnt])
      refine ⟨H.1, ?_⟩
      intro hlen
      have h2 := H.2
      have h0 : rd_list_some_cnt (⟨[]⟩ : RdList ConfigResource) = 0 := rfl
      have hle2 := rd_list_some_cnt_le r
      omega
  · intro args options reply r h
    unfold rd_kafka_DescribeConfigsResponse_parse at h
    split at h
    · cases h
    · have hstep : ∀ (r0 : RdList ConfigResource) (e : DCRespResource) r1,
          DescribeConfigs_handle_resource args reply.ApiVersion r0 e =
            .ok r1 →
          ((fun (e : DCRespResource) =>
              ConfigResource_unsupported e.res_type e.res_name) e = true ∧
            r1 = r0) ∨
          ((fun (e : DCRespResource) =>
              ConfigResource_unsupported e.res_type e.res_name) e = false ∧
            ∃ i x, i < args.length ∧ rd_list_elem r0 i = none ∧
              r1 = rd_list_set r0 i x) :=
        fun r0 e r1 hh =>
          DescribeConfigs_step_shape args reply.ApiVersion r0 e r1 hh
      have H := admin_parse_loop_place_inv args.length _ _ hstep
        reply.resources ⟨[]⟩ r h (by simp [rd_list_cnt])
      refine ⟨H.1, ?_⟩
      intro hlen
      have h2 := H.2
      have h0 : rd_list_some_cnt (⟨[]⟩ : RdList ConfigResource) = 0 := rfl
      have hle2 := rd_list_some_cnt_le r
      omega

/-- Witness for C3 (amended) at a concrete one-topic parse. -/
theorem C3_result_length_amended_witness :
    rd_kafka_CreateTopicsResponse_parse c3wArgs optsDefault c3wReply =
      .ok c3wRes ∧
    rd_list_cnt c3wRes ≤ c3wArgs.length :=
  ⟨rfl,
    (C3_result_length_amended.1 c3wArgs optsDefault c3wReply c3wRes rfl).1⟩

/-- C4: in each of the three topic-mutation parsers, a response element
whose error code is REQUEST_TIMED_OUT has its error code rewritten to
no error exactly when the operation_timeout option is at most zero; any
other combination keeps the element error code. -/
theorem C4_operation_timeout_rewrite :
    (∀ (v : Int) (options : AdminOptions) (e : CTRespTopic),
      (CreateTopics_build_result v options e).err =
        (if e.error_code = ErrCode.REQUEST_TIMED_OUT ∧
            rd_kafka_confval_get_int options.operation_timeout ≤ 0 then
          ErrCode.NO_ERROR
        else e.error_code)) ∧
    (∀ (options : AdminOptions) (e : DTRespTopic),
      (DeleteTopics_build_result options e).err =
        (if e.error_code = ErrCode.REQUEST_TIMED_OUT ∧
            rd_kafka_confval_get_int options.operation_timeout ≤ 0 then
          ErrCode.NO_ERROR
        else e.error_code)) ∧
    (∀ (options : AdminOptions) (e : CPRespTopic),
      (CreatePartitions_build_result options e).err =
        (if e.error_code = ErrCode.REQUEST_TIMED_OUT ∧
            rd_kafka_confval_get_int options.operation_timeout ≤ 0 then
          ErrCode.NO_ERROR
        else e.error_code)) :=
  ⟨fun _ _ _ => rfl, fun _ _ => rfl, fun _ _ => rfl⟩

/-- Counterexample to C5 as stated: a successfully parsed version 1
DescribeConfigs response contains a synonym config entry whose source tag
is DEFAULT_CONFIG while its is_default flag is false, so the claimed
equivalence does not hold of every entry the parser produces. -/
theorem C5_source_default_counterexample :
    rd_kafka_DescribeConfigsResponse_parse cfgArgsT optsDefault c5Reply =
      .ok c5Expected ∧
    (c5ExpectedEntry.synonyms.headD dummyConfigEntry).a.source =
      RD_KAFKA_CONFIG_SOURCE_DEFAULT_CONFIG ∧
    (c5ExpectedEntry.synonyms.headD dummyConfigEntry).a.is_default = false :=
  ⟨rfl, rfl, rfl⟩

theorem DescribeConfigs_entry_attrs_spec (v : Int) (e : DCRespEntry) :
    ((DescribeConfigs_entry_attrs v e).source =
        RD_KAFKA_CONFIG_SOURCE_DEFAULT_CONFIG ↔
      (DescribeConfigs_entry_attrs v e).is_default = true) ∧
    (v = 0 → e.is_default = true →
      (DescribeConfigs_entry_attrs v e).source =
          RD_KAFKA_CONFIG_SOURCE_DEFAULT_CONFIG ∧
        (DescribeConfigs_entry_attrs v e).is_default = true) ∧
    (v ≠ 0 → e.source = RD_KAFKA_CONFIG_SOURCE_DEFAULT_CONFIG →
      (DescribeConfigs_entry_attrs v e).is_default = true) := by
  unfold DescribeConfigs_entry_attrs
  by_cases hv0 : v = 0
  · subst hv0
    cases hd : e.is_default
    · simp [rd_kafka_ConfigEntry_new0, ConfigEntry.a, hd,
        RD_KAFKA_CONFIG_SOURCE_DEFAULT_CONFIG,
        RD_KAFKA_CONFIG_SOURCE_UNKNOWN_CONFIG]
    · simp [rd_kafka_ConfigEntry_new0, ConfigEntry.a, hd]
  · by_cases hs : e.source = RD_KAFKA_CONFIG_SOURCE_DEFAULT_CONFIG
    · simp [rd_kafka_ConfigEntry_new0, ConfigEntry.a, hs, hv0]
    · simp [rd_kafka_ConfigEntry_new0, ConfigEntry.a, hs, hv0]

theorem DescribeConfigs_parse_entry_ok (v : Int) (e : DCRespEntry)
    (entry : ConfigEntry)
    (h : DescribeConfigs_parse_entry v e = .ok entry) :
    entry.a = DescribeConfigs_entry_attrs v e ∧
    (∀ syn ∈ entry.synonyms, syn.a.is_default = false) := by
  simp only [DescribeConfigs_parse_entry] at h
  split at h
  · split at h
    · cases h
    · split at h
      · cases h
      · rename_i syns hsyns
        simp only [Except.ok.injEq] at h
        subst h
        refine ⟨by simp [ConfigEntry.a], ?_⟩
        intro syn hsyn
        exact (DescribeConfigs_parse_synonyms_flags e.synonyms syns hsyns
          syn (by simpa [ConfigEntry.synonyms] using hsyn)).1
  · simp only [Except.ok.injEq] at h
    subst h
    refine ⟨by simp [ConfigEntry.a], ?_⟩
    intro syn hsyn
    simp [ConfigEntry.synonyms] at hsyn

/-- C5 (amended): for every config entry the DescribeConfigs entry reader
produces directly (synonyms aside): on version 0 an entry read with
is_default set has its source set to DEFAULT_CONFIG, on version 1 and
later an entry whose source tag is DEFAULT_CONFIG has is_default set, and
the equivalence source equals DEFAULT_CONFIG exactly when is_default is
set holds of the entry itself; synonym entries instead always carry
is_default false, whatever their wire source tag. -/
theorem C5_source_default_amended :
    ∀ (v : Int) (e : DCRespEntry) (entry : ConfigEntry),
      DescribeConfigs_parse_entry v e = .ok entry →
      ((v = 0 → e.is_default = true →
          entry.a.source = RD_KAFKA_CONFIG_SOURCE_DEFAULT_CONFIG ∧
          entry.a.is_default = true) ∧
       (v ≠ 0 → e.source = RD_KAFKA_CONFIG_SOURCE_DEFAULT_CONFIG →
          entry.a.is_default = true) ∧
       (entry.a.source = RD_KAFKA_CONFIG_SOURCE_DEFAULT_CONFIG ↔
          entry.a.is_default = true) ∧
       (∀ syn ∈ entry.synonyms, syn.a.is_default = false)) := by
  intro v e entry h
  obtain ⟨ha, hsyn⟩ := DescribeConfigs_parse_entry_ok v e entry h
  have HS := DescribeConfigs_entry_attrs_spec v e
  rw [ha]
  exact ⟨fun h0 hd => HS.2.1 h0 hd, fun hne hsrc => HS.2.2 hne hsrc,
    HS.1, hsyn⟩

/-- Witness for C5 (amended) at a concrete version 1 entry whose source
tag is DEFAULT_CONFIG. -/
theorem C5_source_default_amended_witness :
    DescribeConfigs_parse_entry 1 c5wE = .ok c5wEntry ∧
    (c5wEntry.a.source = RD_KAFKA_CONFIG_SOURCE_DEFAULT_CONFIG ↔
      c5wEntry.a.is_default = true) :=
  ⟨rfl, (C5_source_default_amended 1 c5wE c5wEntry rfl).2.2.1⟩

/-- C6: every admin response parser fails with BadMessage, returning no
result object, when the response declares more per-element results than
the request args list contains. -/
theorem C6_excess_elements_bad_msg :
    (∀ (args : List NewTopic) (options : AdminOptions)
        (reply : CreateTopicsResponse),
      args.length < reply.topics.length →
      rd_kafka_CreateTopicsResponse_parse args options reply =
        .error (.tooManyInResponse reply.topics.length args.length)) ∧
    (∀ (args : List DeleteTopic) (options : AdminOptions)
        (reply : DeleteTopicsResponse),
      args.length < reply.topics.length →
      rd_kafka_DeleteTopicsResponse_parse args options reply =
        .error (.tooManyInResponse reply.topics.length args.length)) ∧
    (∀ (args : List NewPartitions) (options : AdminOptions)
        (reply : CreatePartitionsResponse),
      args.length < reply.topics.length →
      rd_kafka_CreatePartitionsResponse_parse args options reply =
        .error (.tooManyInResponse reply.topics.length args.length)) ∧
    (∀ (args : List ConfigResource) (options : AdminOptions)
        (reply : AlterConfigsResponse),
      args.length < reply.resources.length →
      rd_kafka_AlterConfigsResponse_parse args options reply =
        .error (.tooManyInResponse reply.resources.length args.length)) ∧
    (∀ (args : List ConfigResource) (options : AdminOptions)
        (reply : DescribeConfigsResponse),
      args.length < reply.resources.length →
      rd_kafka_DescribeConfigsResponse_parse args options reply =
        .error (.tooManyInResponse reply.resources.length args.length)) ∧
    (∀ (received requested : Nat),
      (ParseErr.tooManyInResponse received requested).code =
        ErrCode.BAD_MSG) := by
  refine ⟨?_, ?_, ?_, ?_, ?_, fun _ _ => rfl⟩
  · intro args options reply h
    unfold rd_kafka_CreateTopicsResponse_parse
    rw [if_pos h]
  · intro args options reply h
    unfold rd_kafka_DeleteTopicsResponse_parse
    rw [if_pos h]
  · intro args options reply h
    unfold rd_kafka_CreatePartitionsResponse_parse
    rw [if_pos h]
  · intro args options reply h
    unfold rd_kafka_AlterConfigsResponse_parse
    rw [if_pos h]
  · intro args options reply h
    unfold rd_kafka_DescribeConfigsResponse_parse
    rw [if_pos h]

/-- Witness for C6 at a concrete one-topic response against an empty
request. -/
theorem C6_excess_elements_bad_msg_witness :
    ([] : List NewTopic).length < c6wReply.topics.length ∧
    rd_kafka_CreateTopicsResponse_parse [] optsDefault c6wReply =
      .error (.tooManyInResponse c6wReply.topics.length
        ([] : List NewTopic).length) :=
  ⟨by decide, C6_excess_elements_bad_msg.1 [] optsDefault c6wReply
    (by decide)⟩

/-- Counterexample to C7 as stated: an args list with two BROKER resources
whose first has a non-integer name fails with INVALID_ARG, not with the
claimed CONFLICT. -/
theorem C7_broker_preflight_counterexample :
    (c7Cfgs.filter (fun c => c.restype == RD_KAFKA_RESOURCE_BROKER)).length
        = 2 ∧
    rd_kafka_AlterConfigs c7Cfgs = .failedSync ErrCode.INVALID_ARG ∧
    rd_kafka_DescribeConfigs c7Cfgs = .failedSync ErrCode.INVALID_ARG ∧
    ErrCode.INVALID_ARG ≠ ErrCode.CONFLICT :=
  ⟨rfl, rfl, rfl, by decide⟩

/-- C7 (amended): the AlterConfigs and DescribeConfigs submissions scan
the copied args in order for resources of type Broker.  With none, the
target broker id stays -1 (the controller) and the request is enqueued.
Otherwise the first Broker resource decides: a name without a leading
integer, or whose strtol value truncated to int32 is negative (or hits the
long extremes), fails synchronously with InvalidArg; with a valid first
name, any further Broker resource fails synchronously with Conflict, and
a single Broker resource sets the target broker id to the parsed name.
No request is enqueued on either failure. -/
theorem C7_broker_preflight_amended :
    ∀ (configs : List ConfigResource),
      (configs.filter (fun c => c.restype == RD_KAFKA_RESOURCE_BROKER)
          = [] →
        rd_kafka_ConfigResource_get_single_broker_id configs = .ok (-1) ∧
        rd_kafka_AlterConfigs configs = .enqueued (-1) ∧
        rd_kafka_DescribeConfigs configs = .enqueued (-1)) ∧
      (∀ (b : ConfigResource) (rest : List ConfigResource),
        configs.filter (fun c => c.restype == RD_KAFKA_RESOURCE_BROKER)
            = b :: rest →
        (broker_name_rejected b.name = true →
          rd_kafka_ConfigResource_get_single_broker_id configs =
            .error (.INVALID_ARG, invalidBrokerErrstr b.name) ∧
          rd_kafka_AlterConfigs configs = .failedSync ErrCode.INVALID_ARG ∧
          rd_kafka_DescribeConfigs configs =
            .failedSync ErrCode.INVALID_ARG) ∧
        (broker_name_rejected b.name = false → rest = [] →
          rd_kafka_ConfigResource_get_single_broker_id configs =
            .ok (broker_name_parsed b.name) ∧
          rd_kafka_AlterConfigs configs =
            .enqueued (broker_name_parsed b.name) ∧
          rd_kafka_DescribeConfigs configs =
            .enqueued (broker_name_parsed b.name)) ∧
        (broker_name_rejected b.name = false → rest ≠ [] →
          rd_kafka_ConfigResource_get_single_broker_id configs =
            .error (.CONFLICT, conflictErrstr) ∧
          rd_kafka_AlterConfigs configs = .failedSync ErrCode.CONFLICT ∧
          rd_kafka_DescribeConfigs configs =
            .failedSync ErrCode.CONFLICT)) := by
  intro configs
  constructor
  · intro hf
    have h := gsb0_no_broker configs (-1) hf
    refine ⟨h, ?_, ?_⟩ <;>
      simp [rd_kafka_AlterConfigs, rd_kafka_DescribeConfigs,
        rd_kafka_ConfigResource_get_single_broker_id, h]
  · intro b rest hf
    have h := gsb0_first configs b rest hf
    refine ⟨?_, ?_, ?_⟩
    · intro hrej
      rw [if_pos hrej] at h
      refine ⟨h, ?_, ?_⟩ <;>
        simp [rd_kafka_AlterConfigs, rd_kafka_DescribeConfigs,
          rd_kafka_ConfigResource_get_single_broker_id, h]
    · intro hrej hrest
      subst hrest
      rw [if_neg (by simp [hrej])] at h
      simp only [List.isEmpty_nil, if_true] at h
      refine ⟨h, ?_, ?_⟩ <;>
        simp [rd_kafka_AlterConfigs, rd_kafka_DescribeConfigs,
          rd_kafka_ConfigResource_get_single_broker_id, h]
    · intro hrej hrest
      rw [if_neg (by simp [hrej]),
        if_neg (by simp [List.isEmpty_eq_true, hrest])] at h
      refine ⟨h, ?_, ?_⟩ <;>
        simp [rd_kafka_AlterConfigs, rd_kafka_DescribeConfigs,
          rd_kafka_ConfigResource_get_single_broker_id, h]

/-- Witness for C7 (amended) at a concrete single valid BROKER
resource. -/
theorem C7_broker_preflight_amended_witness :
    c7wCfgs.filter (fun c => c.restype == RD_KAFKA_RESOURCE_BROKER)
        = c7wB :: [] ∧
    broker_name_rejected c7wB.name = false ∧
    rd_kafka_ConfigResource_get_single_broker_id c7wCfgs =
      .ok (broker_name_parsed c7wB.name) :=
  ⟨rfl, rfl,
    (((C7_broker_preflight_amended c7wCfgs).2 c7wB [] rfl).2.1 rfl rfl).1⟩

/-- Counterexample to C8 as stated: explicitly setting the broker option
to -1 is rejected with INVALID_ARG, because the option cell is declared
with the valid range 0 to INT32_MAX; -1 is reachable only as the
default. -/
theorem C8_set_broker_counterexample :
    (rd_kafka_AdminOptions_set_broker
        (rd_kafka_AdminOptions_init 60000 none) (-1)).1 =
      ErrCode.INVALID_ARG ∧
    ErrCode.INVALID_ARG ≠ ErrCode.NO_ERROR :=
  ⟨rfl, by decide⟩

/-- C8 (amended): for every admin API, setting the broker option succeeds
exactly when the value lies between 0 and INT32_MAX; the value -1 is not
itself settable, but it is the default of the option, meaning the
controller. -/
theorem C8_set_broker_amended :
    ∀ (rt : Int) (fa : Option String) (b : Int),
      -(2 ^ 31) ≤ b → b < 2 ^ 31 →
      (((rd_kafka_AdminOptions_set_broker
            (rd_kafka_AdminOptions_init rt fa) b).1 = ErrCode.NO_ERROR) ↔
        (0 ≤ b ∧ b ≤ INT32_MAX)) ∧
      rd_kafka_confval_get_int
        (rd_kafka_AdminOptions_init rt fa).broker = -1 := by
  intro rt fa b _ _
  constructor
  · simp only [rd_kafka_AdminOptions_set_broker,
      rd_kafka_AdminOptions_init, rd_kafka_confval_set_int,
      rd_kafka_confval_init_int]
    split
    · simp_all
    · split
      · rename_i hrange
        simp only [reduceCtorEq, false_iff, not_and, not_le]
        intro hb
        omega
      · rename_i hvalid hrange
        simp only [true_iff]
        constructor <;> omega
  · rfl

/-- Witness for C8 (amended) at a concrete in-range broker id. -/
theorem C8_set_broker_amended_witness :
    (-(2 ^ 31) ≤ (5 : Int) ∧ (5 : Int) < 2 ^ 31) ∧
    ((rd_kafka_AdminOptions_set_broker
        (rd_kafka_AdminOptions_init 60000 none) 5).1 = ErrCode.NO_ERROR ↔
      (0 ≤ (5 : Int) ∧ (5 : Int) ≤ INT32_MAX)) :=
  ⟨⟨by decide, by decide⟩,
    (C8_set_broker_amended 60000 none 5 (by decide) (by decide)).1⟩

/-- C9: the synonym accessor of a config entry and the config accessor of
a config resource set the count output to the sequence length and return a
NULL array exactly when that length is zero; a caller never sees a
non-null pointer for an empty sequence. -/
theorem C9_empty_arrays_null :
    (∀ entry : ConfigEntry,
      (rd_kafka_ConfigEntry_synonyms entry).2 = entry.synonyms.length ∧
      ((rd_kafka_ConfigEntry_synonyms entry).1 = none ↔
        entry.synonyms.length = 0)) ∧
    (∀ config : ConfigResource,
      (rd_kafka_ConfigResource_configs config).2 = config.config.length ∧
      ((rd_kafka_ConfigResource_configs config).1 = none ↔
        config.config.length = 0)) := by
  constructor
  · intro entry
    simp only [rd_kafka_ConfigEntry_synonyms]
    split
    · simp_all
    · simp_all
  · intro config
    simp only [rd_kafka_ConfigResource_configs]
    split
    · simp_all
    · simp_all

/-- C10: the two enum-name lookups are total over the int32 range: a known
member yields its fixed table name through an in-bounds index, and any
other value, negatives included via the unsigned comparison, yields the
string UNSUPPORTED without indexing the table. -/
theorem C10_enum_names_total :
    ∀ v : Int, -(2 ^ 31) ≤ v → v < 2 ^ 31 →
      ((0 ≤ v → v < RD_KAFKA_CONFIG_SOURCE__CNT →
          rd_kafka_ConfigSource_name v = configSourceNames.getD v.toNat "" ∧
          v.toNat < configSourceNames.length) ∧
       (v < 0 ∨ RD_KAFKA_CONFIG_SOURCE__CNT ≤ v →
          rd_kafka_ConfigSource_name v = "UNSUPPORTED")) ∧
      ((0 ≤ v → v < RD_KAFKA_RESOURCE__CNT →
          rd_kafka_ResourceType_name v = resourceTypeNames.getD v.toNat "" ∧
          v.toNat < resourceTypeNames.length) ∧
       (v < 0 ∨ RD_KAFKA_RESOURCE__CNT ≤ v →
          rd_kafka_ResourceType_name v = "UNSUPPORTED")) := by
  intro v hlo hhi
  simp only [rd_kafka_ConfigSource_name, rd_kafka_ResourceType_name,
    toUInt32N, RD_KAFKA_CONFIG_SOURCE__CNT, RD_KAFKA_RESOURCE__CNT,
    configSourceNames, resourceTypeNames]
  refine ⟨⟨?_, ?_⟩, ⟨?_, ?_⟩⟩
  · intro h0 h6
    rw [if_neg (by omega)]
    constructor
    · have : (v % 2 ^ 32).toNat = v.toNat := by omega
      rw [this]
    · simp only [List.length_cons, List.length_nil]
      omega
  · intro h
    rw [if_pos (by omega)]
  · intro h0 h5
    rw [if_neg (by omega)]
    constructor
    · have : (v % 2 ^ 32).toNat = v.toNat := by omega
      rw [this]
    · simp only [List.length_cons, List.length_nil]
      omega
  · intro h
    rw [if_pos (by omega)]

/-- Witness for C10 at concrete in-range and out-of-range tags. -/
theorem C10_enum_names_total_witness :
    (-(2 ^ 31) ≤ (5 : Int) ∧ (5 : Int) < 2 ^ 31 ∧ (0 : Int) ≤ 5 ∧
      (5 : Int) < RD_KAFKA_CONFIG_SOURCE__CNT) ∧
    rd_kafka_ConfigSource_name 5 = configSourceNames.getD (5 : Int).toNat "" :=
  ⟨⟨by decide, by decide, by decide, by decide⟩,
    ((C10_enum_names_total 5 (by decide) (by decide)).1.1 (by decide)
      (by decide)).1⟩
